import Mathlib

/-!
# SPI full-duplex loopback example (STM32L0 snippet `01_FullDuplexCommunication/main.c`)

A shallow embedding of the interrupt handlers, the main-loop verifier and the clock
configuration routine of `main.c`, followed by theorems about them.

Conventions of the embedding

* C globals, function-level `static` variables and the peripheral registers the code
  touches are fields of one record `State`; every C function is a function on `State`.
* `uint32_t`, `uint16_t` and `uint8_t` values are natural numbers; every operation that can
  leave the range is written with an explicit `% 2 ^ w`.
* Interrupt handlers run to completion, so each handler is one atomic state transformer.
-/

namespace FullDuplex

/-! ## Constants defined in `main.c` -/

/-- C macro `#define HSI_TIMEOUT_VALUE ((uint32_t)100)` -/
def HSI_TIMEOUT_VALUE : Nat := 100
/-- C macro `#define PLL_TIMEOUT_VALUE ((uint32_t)100)` -/
def PLL_TIMEOUT_VALUE : Nat := 100
/-- C macro `#define CLOCKSWITCH_TIMEOUT_VALUE ((uint32_t)5000)` -/
def CLOCKSWITCH_TIMEOUT_VALUE : Nat := 5000
/-- C macro `#define SHORT_DELAY 200` -/
def SHORT_DELAY : Nat := 200
/-- C macro `#define LONG_DELAY 1000` -/
def LONG_DELAY : Nat := 1000
/-- C macro `#define ERROR_SPI 0x01` -/
def ERROR_SPI : Nat := 0x01
/-- C macro `#define ERROR_HSI_TIMEOUT 0x02` -/
def ERROR_HSI_TIMEOUT : Nat := 0x02
/-- C macro `#define ERROR_PLL_TIMEOUT 0x03` -/
def ERROR_PLL_TIMEOUT : Nat := 0x03
/-- C macro `#define ERROR_CLKSWITCH_TIMEOUT 0x04` -/
def ERROR_CLKSWITCH_TIMEOUT : Nat := 0x04
/-- C macro `#define SPI2_DATA (0xDE)` -/
def SPI2_DATA : Nat := 0xDE
/-- C macro `#define SPI1_DATA (0xCA)` -/
def SPI1_DATA : Nat := 0xCA

/-! ## Constants of the device header

`main.c` includes `stm32l0xx.h`, which is not among the sources.  The bit masks it
declares are given here with the values of the STM32L0x3 register map. -/

/-- Modelled from the spec: `EXTI_PR_PR0` of the absent `stm32l0xx.h`, the pending flag of
EXTI line 0 (bit 0 of `EXTI->PR`), the "edge-detection flag" of the button. -/
def EXTI_PR_PR0 : Nat := 0x1
/-- Modelled from the spec: `SPI_SR_RXNE` of the absent `stm32l0xx.h`, the "receive buffer
full" status flag (bit 0 of `SPIx->SR`). -/
def SPI_SR_RXNE : Nat := 0x1
/-- Modelled from the spec: `SPI_SR_TXE` of the absent `stm32l0xx.h`, the "transmit buffer
empty" status flag (bit 1 of `SPIx->SR`). -/
def SPI_SR_TXE : Nat := 0x2
/-- Modelled from the spec: `RCC_APB1ENR_PWREN` of the absent `stm32l0xx.h`. -/
def RCC_APB1ENR_PWREN : Nat := 0x10000000
/-- Modelled from the spec: `PWR_CR_VOS` of the absent `stm32l0xx.h`. -/
def PWR_CR_VOS : Nat := 0x1800
/-- Modelled from the spec: `PWR_CR_VOS_0` of the absent `stm32l0xx.h`. -/
def PWR_CR_VOS_0 : Nat := 0x0800
/-- Modelled from the spec: `RCC_CR_HSION` of the absent `stm32l0xx.h`. -/
def RCC_CR_HSION : Nat := 0x1
/-- Modelled from the spec: `RCC_CR_HSIRDY` of the absent `stm32l0xx.h`. -/
def RCC_CR_HSIRDY : Nat := 0x4
/-- Modelled from the spec: `RCC_CR_HSIDIVEN` of the absent `stm32l0xx.h`. -/
def RCC_CR_HSIDIVEN : Nat := 0x8
/-- Modelled from the spec: `RCC_CR_HSIDIVF` of the absent `stm32l0xx.h`. -/
def RCC_CR_HSIDIVF : Nat := 0x10
/-- Modelled from the spec: `RCC_CR_PLLON` of the absent `stm32l0xx.h`. -/
def RCC_CR_PLLON : Nat := 0x01000000
/-- Modelled from the spec: `RCC_CR_PLLRDY` of the absent `stm32l0xx.h`. -/
def RCC_CR_PLLRDY : Nat := 0x02000000
/-- Modelled from the spec: `RCC_CFGR_PLLSRC_HSI` of the absent `stm32l0xx.h`. -/
def RCC_CFGR_PLLSRC_HSI : Nat := 0x0
/-- Modelled from the spec: `RCC_CFGR_PLLMUL8` of the absent `stm32l0xx.h`. -/
def RCC_CFGR_PLLMUL8 : Nat := 0x000C0000
/-- Modelled from the spec: `RCC_CFGR_PLLDIV2` of the absent `stm32l0xx.h`. -/
def RCC_CFGR_PLLDIV2 : Nat := 0x00400000
/-- Modelled from the spec: `RCC_CFGR_SW_PLL` of the absent `stm32l0xx.h`. -/
def RCC_CFGR_SW_PLL : Nat := 0x3
/-- Modelled from the spec: `RCC_CFGR_SWS_PLL` of the absent `stm32l0xx.h`. -/
def RCC_CFGR_SWS_PLL : Nat := 0xC

/-- Modelled from the spec: the interrupt lines `EXTI0_1_IRQn`, `SPI1_IRQn`, `SPI2_IRQn`
of the absent `stm32l0xx.h`, as the three interrupt sources of this program. -/
inductive IRQn where
  | EXTI0_1_IRQn
  | SPI1_IRQn
  | SPI2_IRQn
  deriving DecidableEq

/-! ## Machine arithmetic -/

/-- C operator `x++` on a `uint32_t`. -/
def inc32 (x : Nat) : Nat := (x + 1) % 2 ^ 32

/-- C operator `x--` on a `uint32_t`: `0` wraps to `2 ^ 32 - 1`. -/
def dec32 (x : Nat) : Nat := (x + (2 ^ 32 - 1)) % 2 ^ 32

/-- C operator `a - b` on two `uint32_t` values. -/
def sub32 (a b : Nat) : Nat := (a + (2 ^ 32 - b % 2 ^ 32)) % 2 ^ 32

/-- C operator `~x` on a `uint32_t`. -/
def not32 (x : Nat) : Nat := (2 ^ 32 - 1) ^^^ (x % 2 ^ 32)

/-- The register `reg` with the bits of `mask` cleared: the effect of writing `mask` to a
write-one-to-clear register (`EXTI->PR`), to a GPIO bit reset register (`GPIOx->BRR`) or of
the hardware clearing a status flag. -/
def clearBits (reg mask : Nat) : Nat := reg ^^^ (reg &&& mask)

/-! ## Program state -/

/-- The globals of `main.c`, the `static` locals of `SysTick_Handler`, and the peripheral
registers the program reads or writes. -/
structure State where
  /-- C variable `static __IO uint32_t Tick;` -/
  Tick : Nat
  /-- C variable `volatile uint16_t error = 0;` (the spec's ErrorCode) -/
  error : Nat
  /-- C variable `volatile uint8_t SPI1_Data = 0;` -/
  SPI1_Data : Nat
  /-- C variable `volatile uint8_t SPI2_Data = 0;` -/
  SPI2_Data : Nat
  /-- C variable `volatile uint8_t SPI1_ByteReceived = 0;` -/
  SPI1_ByteReceived : Nat
  /-- C variable `volatile uint8_t SPI2_ByteReceived = 0;` -/
  SPI2_ByteReceived : Nat
  /-- C variable `static uint32_t long_counter = LONG_DELAY;` in `SysTick_Handler` -/
  long_counter : Nat
  /-- C variable `static uint32_t short_counter = SHORT_DELAY;` in `SysTick_Handler` -/
  short_counter : Nat
  /-- C variable `static uint16_t error_temp = 0;` in `SysTick_Handler` -/
  error_temp : Nat
  /-- Register `GPIOA->ODR`; bit 5 drives the red LED. -/
  GPIOA_ODR : Nat
  /-- Register `GPIOB->ODR`; bit 4 drives the green LED. -/
  GPIOB_ODR : Nat
  /-- Register `EXTI->PR`, the pending register. -/
  EXTI_PR : Nat
  /-- Register `SPI1->SR` -/
  SPI1_SR : Nat
  /-- Register `SPI1->DR` as read: the receive buffer. -/
  SPI1_DR : Nat
  /-- Bytes written to `SPI1->DR` (the transmit buffer), most recent first. -/
  SPI1_TX : List Nat
  /-- Register `SPI2->SR` -/
  SPI2_SR : Nat
  /-- Register `SPI2->DR` as read: the receive buffer. -/
  SPI2_DR : Nat
  /-- Bytes written to `SPI2->DR` (the transmit buffer), most recent first. -/
  SPI2_TX : List Nat
  /-- NVIC enable bit of `EXTI0_1_IRQn`. -/
  NVIC_EXTI0_1 : Bool
  /-- NVIC enable bit of `SPI1_IRQn`. -/
  NVIC_SPI1 : Bool
  /-- NVIC enable bit of `SPI2_IRQn`. -/
  NVIC_SPI2 : Bool
  /-- Register `RCC->APB1ENR` -/
  RCC_APB1ENR : Nat
  /-- Register `PWR->CR` -/
  PWR_CR : Nat
  /-- Register `RCC->CR`, the bits written by software. -/
  RCC_CR : Nat
  /-- Register `RCC->CFGR`, the bits written by software. -/
  RCC_CFGR : Nat
  /-- Instrumentation, not a program variable: how many times the statement
  `GPIOA->ODR ^= (1 << 5)` of `SysTick_Handler` has been executed. -/
  redToggles : Nat
  deriving DecidableEq

/-- Modelled from the spec: the CMSIS function `NVIC_DisableIRQ` is not among the sources;
it disables the given interrupt source in the NVIC. -/
def NVIC_DisableIRQ (n : IRQn) (s : State) : State :=
  match n with
  | .EXTI0_1_IRQn => { s with NVIC_EXTI0_1 := false }
  | .SPI1_IRQn => { s with NVIC_SPI1 := false }
  | .SPI2_IRQn => { s with NVIC_SPI2 := false }

/-- Modelled from the spec: the CMSIS function `NVIC_EnableIRQ` is not among the sources;
it enables the given interrupt source in the NVIC. -/
def NVIC_EnableIRQ (n : IRQn) (s : State) : State :=
  match n with
  | .EXTI0_1_IRQn => { s with NVIC_EXTI0_1 := true }
  | .SPI1_IRQn => { s with NVIC_SPI1 := true }
  | .SPI2_IRQn => { s with NVIC_SPI2 := true }

/-! ## The main-loop body (Transfer Verifier), `main.c` lines 165-177 -/

/-- One pass of the body of `while(1)` in `main`, run without interruption. -/
def verifier (s : State) : State :=
  if s.SPI1_ByteReceived ≠ 0 ∧ s.SPI2_ByteReceived ≠ 0 then
    let s1 := { s with SPI1_ByteReceived := 0 }
    let s2 := { s1 with SPI2_ByteReceived := 0 }
    if s2.SPI1_Data = SPI2_DATA ∧ s2.SPI2_Data = SPI1_DATA then
      { s2 with GPIOB_ODR := s2.GPIOB_ODR ^^^ (1 <<< 4) }
    else
      { s2 with error := ERROR_SPI }
  else s

/-! ## Interrupt handlers -/

/-- C function `void SysTick_Handler(void)`, `main.c` lines 452-488. -/
def SysTick_Handler (s : State) : State :=
  let s0 := { s with Tick := inc32 s.Tick }
  -- `if (long_counter-- == 0)`: compare the old value, then decrement
  let expired := s0.long_counter = 0
  let s1 := { s0 with long_counter := dec32 s0.long_counter }
  let s2 :=
    if expired then
      if s1.error = 0 then
        { s1 with long_counter := LONG_DELAY }
      else if s1.error ≠ 0xFF then
        { s1 with
            error_temp := ((s1.error <<< 1) + (2 ^ 16 - 1)) % 2 ^ 16
            short_counter := SHORT_DELAY
            long_counter := LONG_DELAY <<< 1
            GPIOA_ODR := s1.GPIOA_ODR ||| (1 <<< 5)
            GPIOB_ODR := clearBits s1.GPIOB_ODR (1 <<< 4) }
      else s1
    else s1
  if s2.error_temp > 0 then
    -- `if (short_counter-- == 0)`
    let zero := s2.short_counter = 0
    let s3 := { s2 with short_counter := dec32 s2.short_counter }
    if zero then
      { s3 with
          GPIOA_ODR := s3.GPIOA_ODR ^^^ (1 <<< 5)
          short_counter := SHORT_DELAY
          error_temp := s3.error_temp - 1
          redToggles := s3.redToggles + 1 }
    else s3
  else s2

/-- C function `void EXTI0_1_IRQHandler(void)`, `main.c` lines 504-518.  `EXTI->PR` is
write-one-to-clear ("Clear EXTI 0 flag"). -/
def EXTI0_1_IRQHandler (s : State) : State :=
  if s.EXTI_PR &&& EXTI_PR_PR0 = EXTI_PR_PR0 then
    let s1 := { s with EXTI_PR := clearBits s.EXTI_PR EXTI_PR_PR0 }
    if s1.SPI1_SR &&& SPI_SR_TXE = SPI_SR_TXE then
      let s2 := { s1 with SPI2_TX := SPI2_DATA :: s1.SPI2_TX }
      { s2 with SPI1_TX := SPI1_DATA :: s2.SPI1_TX }
    else s1
  else s

/-- C function `void SPI1_IRQHandler(void)`, `main.c` lines 525-537.  Reading `SPI1->DR`
makes the hardware clear RXNE ("receive data, clear flag"). -/
def SPI1_IRQHandler (s : State) : State :=
  if s.SPI1_SR &&& SPI_SR_RXNE = SPI_SR_RXNE then
    let s1 := { s with SPI1_ByteReceived := 1 }
    { s1 with SPI1_Data := s1.SPI1_DR % 2 ^ 8, SPI1_SR := clearBits s1.SPI1_SR SPI_SR_RXNE }
  else
    let s1 := { s with error := ERROR_SPI }
    NVIC_DisableIRQ .SPI1_IRQn s1

/-- C function `void SPI2_IRQHandler(void)`, `main.c` lines 544-556.  Reading `SPI2->DR`
makes the hardware clear RXNE ("Receive data, clear flag"). -/
def SPI2_IRQHandler (s : State) : State :=
  if s.SPI2_SR &&& SPI_SR_RXNE = SPI_SR_RXNE then
    let s1 := { s with SPI2_ByteReceived := 1 }
    { s1 with SPI2_Data := s1.SPI2_DR % 2 ^ 8, SPI2_SR := clearBits s1.SPI2_SR SPI_SR_RXNE }
  else
    let s1 := { s with error := ERROR_SPI }
    NVIC_DisableIRQ .SPI2_IRQn s1

/-! ## Clock configuration, `main.c` lines 192-239

The three waits of `SystemClock_Config` poll a hardware status register while the SysTick
interrupt advances `Tick`.  Each evaluation of a loop condition consumes one observation of
the environment. -/

/-- One evaluation of a wait-loop condition: how many times SysTick fired since the previous
evaluation, and the value the polled status register presents. -/
structure Obs where
  /-- SysTick firings since the previous read. -/
  ticks : Nat
  /-- Value read from the polled register (`RCC->CR` or `RCC->CFGR`). -/
  reg : Nat
  deriving DecidableEq

/-- How a wait loop ends. -/
inductive Wait where
  /-- The loop condition became false: the awaited status was observed. -/
  | ready (s : State) (rest : List Obs)
  /-- The check `(Tick - tickstart) > timeout` fired. -/
  | timedOut (s : State) (rest : List Obs)
  /-- The observations ran out with the loop still polling. -/
  | polling (s : State)
  deriving DecidableEq

/-- The C loop `while (!ready(reg)) { if ((Tick - tickstart) > timeout) ... return; }`. -/
def waitLoop (ready : Nat → Bool) (timeout tickstart : Nat) : State → List Obs → Wait
  | s, [] => .polling s
  | s, o :: rest =>
    let s1 := SysTick_Handler^[o.ticks] s
    if ready o.reg then .ready s1 rest
    else if sub32 s1.Tick tickstart > timeout then .timedOut s1 rest
    else waitLoop ready timeout tickstart s1 rest

/-- Result of running `SystemClock_Config` against a finite list of observations. -/
inductive Outcome where
  /-- The function returned in state `s`, leaving `rest` unconsumed. -/
  | returned (s : State) (rest : List Obs)
  /-- The function is still inside one of its wait loops, in state `s`. -/
  | polling (s : State)
  deriving DecidableEq

/-- The program state at the end of a wait. -/
def Wait.state : Wait → State
  | .ready s _ => s
  | .timedOut s _ => s
  | .polling s => s

/-- The program state of an outcome. -/
def Outcome.state : Outcome → State
  | .returned s _ => s
  | .polling s => s

/-- C function `__INLINE void SystemClock_Config(void)`, `main.c` lines 192-239. -/
def SystemClock_Config (s : State) (env : List Obs) : Outcome :=
  let s1 := { s with RCC_APB1ENR := s.RCC_APB1ENR ||| RCC_APB1ENR_PWREN }              -- (1)
  let s2 := { s1 with PWR_CR := (s1.PWR_CR &&& not32 PWR_CR_VOS) ||| PWR_CR_VOS_0 }    -- (2)
  let s3 := { s2 with RCC_CR := s2.RCC_CR ||| (RCC_CR_HSION ||| RCC_CR_HSIDIVEN) }     -- (3)
  let tickstart := s3.Tick
  match waitLoop
      (fun cr => cr &&& (RCC_CR_HSIRDY ||| RCC_CR_HSIDIVF) = (RCC_CR_HSIRDY ||| RCC_CR_HSIDIVF))
      HSI_TIMEOUT_VALUE tickstart s3 env with                                           -- (4)
  | .polling t => .polling t
  | .timedOut t rest => .returned { t with error := ERROR_HSI_TIMEOUT } rest
  | .ready t rest =>
    let t1 := { t with RCC_CFGR :=
      t.RCC_CFGR ||| (RCC_CFGR_PLLSRC_HSI ||| RCC_CFGR_PLLMUL8 ||| RCC_CFGR_PLLDIV2) }  -- (5)
    let t2 := { t1 with RCC_CR := t1.RCC_CR ||| RCC_CR_PLLON }                          -- (6)
    let tickstart := t2.Tick
    match waitLoop (fun cr => cr &&& RCC_CR_PLLRDY ≠ 0)
        PLL_TIMEOUT_VALUE tickstart t2 rest with                                        -- (7)
    | .polling u => .polling u
    | .timedOut u rest => .returned { u with error := ERROR_PLL_TIMEOUT } rest
    | .ready u rest =>
      let u1 := { u with RCC_CFGR := u.RCC_CFGR ||| RCC_CFGR_SW_PLL }                   -- (8)
      let tickstart := u1.Tick
      match waitLoop (fun cfgr => cfgr &&& RCC_CFGR_SWS_PLL ≠ 0)
          CLOCKSWITCH_TIMEOUT_VALUE tickstart u1 rest with                              -- (9)
      | .polling v => .polling v
      | .timedOut v rest => .returned { v with error := ERROR_CLKSWITCH_TIMEOUT } rest
      | .ready v rest => .returned v rest

/-! ## Interleaving of the main loop with the channel interrupts

The body of the main loop at the granularity of its volatile accesses; a channel interrupt
can be taken between any two of them. -/

/-- Program points of the main-loop body, named after the source line they are about to
execute. -/
inductive PC where
  /-- About to read `SPI1_ByteReceived` (line 165). -/
  | L165a
  /-- About to read `SPI2_ByteReceived` (line 165). -/
  | L165b
  /-- About to execute `SPI1_ByteReceived=0;` -/
  | L167
  /-- About to execute `SPI2_ByteReceived=0;` -/
  | L168
  /-- About to read `SPI1_Data` (line 169). -/
  | L169a
  /-- About to read `SPI2_Data` (line 169). -/
  | L169b
  /-- About to execute `GPIOB->ODR ^= (1 << 4);` -/
  | L171
  /-- About to execute `error = ERROR_SPI;` -/
  | L175
  deriving DecidableEq

/-- One volatile access of the main loop. -/
def mainStep : PC → State → PC × State
  | .L165a, s => if s.SPI1_ByteReceived ≠ 0 then (.L165b, s) else (.L165a, s)
  | .L165b, s => if s.SPI2_ByteReceived ≠ 0 then (.L167, s) else (.L165a, s)
  | .L167, s => (.L168, { s with SPI1_ByteReceived := 0 })
  | .L168, s => (.L169a, { s with SPI2_ByteReceived := 0 })
  | .L169a, s => if s.SPI1_Data = SPI2_DATA then (.L169b, s) else (.L175, s)
  | .L169b, s => if s.SPI2_Data = SPI1_DATA then (.L171, s) else (.L175, s)
  | .L171, s => (.L165a, { s with GPIOB_ODR := s.GPIOB_ODR ^^^ (1 <<< 4) })
  | .L175, s => (.L165a, { s with error := ERROR_SPI })

/-- The main loop between two interrupts: `n` consecutive volatile accesses. -/
def mainRun : Nat → PC × State → PC × State
  | 0, c => c
  | n + 1, c => mainRun n (mainStep c.1 c.2)

/-- An event of the interleaving. -/
inductive Event where
  /-- The main loop performs its next volatile access. -/
  | main
  /-- SPI1 has received byte `dr` of transfer cycle `cycle`; its interrupt is taken. -/
  | irq1 (cycle dr : Nat)
  /-- SPI2 has received byte `dr` of transfer cycle `cycle`; its interrupt is taken. -/
  | irq2 (cycle dr : Nat)
  deriving DecidableEq

/-- The main loop's program point, the program state, and bookkeeping of transfer cycles:
which cycle the byte and flag of each channel belong to, and which cycles the current pass
of the verifier has tested, cleared and compared. -/
structure Config where
  /-- Program point of the main loop. -/
  pc : PC
  /-- Program state. -/
  st : State
  /-- Transfer cycle of the byte and flag last delivered by `SPI1_IRQHandler`. -/
  cyc1 : Nat
  /-- Transfer cycle of the byte and flag last delivered by `SPI2_IRQHandler`. -/
  cyc2 : Nat
  /-- Cycle of `SPI1_ByteReceived` when this pass read it as set. -/
  tested1 : Option Nat
  /-- Cycle of `SPI2_ByteReceived` when this pass read it as set. -/
  tested2 : Option Nat
  /-- Cycle of `SPI1_ByteReceived` when this pass cleared it. -/
  cleared1 : Option Nat
  /-- Cycle of `SPI2_ByteReceived` when this pass cleared it. -/
  cleared2 : Option Nat
  /-- Cycle of `SPI1_Data` when this pass compared it. -/
  compared1 : Option Nat
  /-- Cycle of `SPI2_Data` when this pass compared it. -/
  compared2 : Option Nat
  deriving DecidableEq

/-- The verifier at the top of the loop, nothing tested yet. -/
def Config.init (s : State) (k1 k2 : Nat) : Config :=
  { pc := .L165a, st := s, cyc1 := k1, cyc2 := k2, tested1 := none, tested2 := none,
    cleared1 := none, cleared2 := none, compared1 := none, compared2 := none }

/-- The access to a variable shared with the channel handlers that the main loop performs
at a program point. -/
inductive Access where
  /-- A read of `SPI1_ByteReceived`. -/
  | readFlag1
  /-- A read of `SPI2_ByteReceived`. -/
  | readFlag2
  /-- The write `SPI1_ByteReceived=0`. -/
  | clearFlag1
  /-- The write `SPI2_ByteReceived=0`. -/
  | clearFlag2
  /-- A read of `SPI1_Data`. -/
  | readByte1
  /-- A read of `SPI2_Data`. -/
  | readByte2
  /-- No access to a shared variable: the toggle of the green LED or the write of `error`. -/
  | act
  deriving DecidableEq

/-- The shared-variable access of each program point of the main loop. -/
def PC.access : PC → Access
  | .L165a => .readFlag1
  | .L165b => .readFlag2
  | .L167 => .clearFlag1
  | .L168 => .clearFlag2
  | .L169a => .readByte1
  | .L169b => .readByte2
  | .L171 => .act
  | .L175 => .act

/-- The SPI1 interrupt for a received byte `dr`: the hardware has loaded the byte into the
data register and set RXNE, and `SPI1_IRQHandler` runs if the interrupt is enabled in the
NVIC. -/
def SPI1_interrupt (dr : Nat) (s : State) : State :=
  if s.NVIC_SPI1 then
    SPI1_IRQHandler { s with SPI1_DR := dr, SPI1_SR := s.SPI1_SR ||| SPI_SR_RXNE }
  else s

/-- The SPI2 interrupt for a received byte `dr`: the hardware has loaded the byte into the
data register and set RXNE, and `SPI2_IRQHandler` runs if the interrupt is enabled in the
NVIC. -/
def SPI2_interrupt (dr : Nat) (s : State) : State :=
  if s.NVIC_SPI2 then
    SPI2_IRQHandler { s with SPI2_DR := dr, SPI2_SR := s.SPI2_SR ||| SPI_SR_RXNE }
  else s

/-- The bookkeeping that goes with one step of the main loop, by the access the step
performs: a read of a flag found set, a clear and a read of a byte each record the transfer
cycle of the variable accessed.  The read of `SPI1_ByteReceived` starts a pass and forgets
the records of the pass before. -/
def Config.note (c : Config) : Config :=
  match c.pc.access with
  | .readFlag1 =>
    { c with tested1 := if c.st.SPI1_ByteReceived ≠ 0 then some c.cyc1 else none,
             tested2 := none, cleared1 := none, cleared2 := none,
             compared1 := none, compared2 := none }
  | .readFlag2 => { c with tested2 := if c.st.SPI2_ByteReceived ≠ 0 then some c.cyc2 else none }
  | .clearFlag1 => { c with cleared1 := some c.cyc1 }
  | .clearFlag2 => { c with cleared2 := some c.cyc2 }
  | .readByte1 => { c with compared1 := some c.cyc1 }
  | .readByte2 => { c with compared2 := some c.cyc2 }
  | .act => c

/-- One event of the interleaving.  A step of the main loop is `mainStep`; a channel
interrupt is `SPI1_interrupt` or `SPI2_interrupt`, and when its handler runs the flag and
byte of the channel belong to the cycle of the byte received. -/
def Config.step (c : Config) : Event → Config
  | .main =>
    let c1 := c.note
    let r := mainStep c.pc c.st
    { c1 with pc := r.1, st := r.2 }
  | .irq1 cycle dr =>
    { c with st := SPI1_interrupt dr c.st, cyc1 := if c.st.NVIC_SPI1 then cycle else c.cyc1 }
  | .irq2 cycle dr =>
    { c with st := SPI2_interrupt dr c.st, cyc2 := if c.st.NVIC_SPI2 then cycle else c.cyc2 }

/-- Run a schedule of events. -/
def Config.run (c : Config) : List Event → Config
  | [] => c
  | e :: es => (c.step e).run es

/-- Program points outside the window of the verifier, which runs from its first flag read
to its last byte read: the top of the loop, and the two actions after the comparison. -/
def PC.quiet : PC → Bool
  | .L165a => true
  | .L171 => true
  | .L175 => true
  | _ => false

/-- A schedule in which no channel interrupt is taken inside the window of the verifier. -/
def Config.calm (c : Config) : List Event → Bool
  | [] => true
  | .main :: es => (c.step .main).calm es
  | .irq1 k dr :: es => c.pc.quiet && (c.step (.irq1 k dr)).calm es
  | .irq2 k dr :: es => c.pc.quiet && (c.step (.irq2 k dr)).calm es

/-- A schedule in which every pass of the verifier that starts with both completion flags
set starts while the two channels hold the flag and byte of the same transfer cycle. -/
def Config.paired (c : Config) : List Event → Bool
  | [] => true
  | e :: es =>
    decide (e = .main → c.pc = .L165a → c.st.SPI1_ByteReceived ≠ 0 →
      c.st.SPI2_ByteReceived ≠ 0 → c.cyc1 = c.cyc2) && (c.step e).paired es

/-- The cycles recorded by the current pass, in the order tested, cleared, compared. -/
def Config.records (c : Config) : List (Option Nat) :=
  [c.tested1, c.tested2, c.cleared1, c.cleared2, c.compared1, c.compared2]

/-- One step of the running program: an interrupt handler, one pass of the main-loop body,
or the hardware changing the peripheral registers it owns.  A channel handler runs only
while its interrupt is enabled in the NVIC. -/
inductive Step : State → State → Prop where
  | tick (s : State) : Step s (SysTick_Handler s)
  | trigger (s : State) : Step s (EXTI0_1_IRQHandler s)
  | spi1 (s : State) : s.NVIC_SPI1 = true → Step s (SPI1_IRQHandler s)
  | spi2 (s : State) : s.NVIC_SPI2 = true → Step s (SPI2_IRQHandler s)
  | verifier (s : State) : Step s (verifier s)
  | hardware (s : State) (pr sr1 dr1 sr2 dr2 : Nat) :
      Step s { s with EXTI_PR := pr, SPI1_SR := sr1, SPI1_DR := dr1,
                      SPI2_SR := sr2, SPI2_DR := dr2 }

/-- Any finite sequence of steps. -/
def Steps : State → State → Prop := Relation.ReflTransGen Step

/-! ## Observing the red LED -/

/-- The red LED (bit 5 of `GPIOA->ODR`) is on. -/
def redOn (s : State) : Bool := s.GPIOA_ODR.testBit 5

/-- The green LED (bit 4 of `GPIOB->ODR`) is on. -/
def greenOn (s : State) : Bool := s.GPIOB_ODR.testBit 4

/-- State of the red LED after each of the next `n` firings of `SysTick_Handler`. -/
def redTrace : Nat → State → List Bool
  | 0, _ => []
  | n + 1, s => redOn (SysTick_Handler s) :: redTrace n (SysTick_Handler s)

/-- Number of on-phases in a trace of the LED, that is of maximal runs of `true`.  With
`prev = true` a run already under way when the trace starts is not counted; with
`prev = false` every run the trace contains is counted. -/
def onPhases (prev : Bool) : List Bool → Nat
  | [] => 0
  | b :: bs => (if b && !prev then 1 else 0) + onPhases b bs

/-- A state with every variable at its C initial value and every register zero. -/
def State.reset : State :=
  { Tick := 0, error := 0, SPI1_Data := 0, SPI2_Data := 0, SPI1_ByteReceived := 0,
    SPI2_ByteReceived := 0, long_counter := LONG_DELAY, short_counter := SHORT_DELAY,
    error_temp := 0, GPIOA_ODR := 0, GPIOB_ODR := 0, EXTI_PR := 0, SPI1_SR := 0, SPI1_DR := 0,
    SPI1_TX := [], SPI2_SR := 0, SPI2_DR := 0, SPI2_TX := [], NVIC_EXTI0_1 := false,
    NVIC_SPI1 := false, NVIC_SPI2 := false, RCC_APB1ENR := 0, PWR_CR := 0, RCC_CR := 0,
    RCC_CFGR := 0, redToggles := 0 }

/-- The running program after initialisation: the three interrupts enabled. -/
def State.running : State :=
  { State.reset with NVIC_EXTI0_1 := true, NVIC_SPI1 := true, NVIC_SPI2 := true }

/-! ## Start-up: `main` up to its main loop, `main.c` lines 133-158

The `Configure_*` functions write configuration registers that no handler reads; they are
kept in a record of their own, next to `State`. -/

/-- Modelled from the spec: `RCC_IOPENR_GPIOAEN` of the absent `stm32l0xx.h`. -/
def RCC_IOPENR_GPIOAEN : Nat := 0x1
/-- Modelled from the spec: `RCC_IOPENR_GPIOBEN` of the absent `stm32l0xx.h`. -/
def RCC_IOPENR_GPIOBEN : Nat := 0x2
/-- Modelled from the spec: `RCC_APB2ENR_SPI1EN` of the absent `stm32l0xx.h`. -/
def RCC_APB2ENR_SPI1EN : Nat := 0x1000
/-- Modelled from the spec: `RCC_APB1ENR_SPI2EN` of the absent `stm32l0xx.h`. -/
def RCC_APB1ENR_SPI2EN : Nat := 0x4000
/-- Modelled from the spec: `GPIO_MODER_MODE0` of the absent `stm32l0xx.h`. -/
def GPIO_MODER_MODE0 : Nat := 0x3
/-- Modelled from the spec: `GPIO_MODER_MODE3` of the absent `stm32l0xx.h`. -/
def GPIO_MODER_MODE3 : Nat := 0xC0
/-- Modelled from the spec: `GPIO_MODER_MODE3_1` of the absent `stm32l0xx.h`. -/
def GPIO_MODER_MODE3_1 : Nat := 0x80
/-- Modelled from the spec: `GPIO_MODER_MODE4` of the absent `stm32l0xx.h`. -/
def GPIO_MODER_MODE4 : Nat := 0x300
/-- Modelled from the spec: `GPIO_MODER_MODE4_0` of the absent `stm32l0xx.h`. -/
def GPIO_MODER_MODE4_0 : Nat := 0x100
/-- Modelled from the spec: `GPIO_MODER_MODE4_1` of the absent `stm32l0xx.h`. -/
def GPIO_MODER_MODE4_1 : Nat := 0x200
/-- Modelled from the spec: `GPIO_MODER_MODE5` of the absent `stm32l0xx.h`. -/
def GPIO_MODER_MODE5 : Nat := 0xC00
/-- Modelled from the spec: `GPIO_MODER_MODE5_0` of the absent `stm32l0xx.h`. -/
def GPIO_MODER_MODE5_0 : Nat := 0x400
/-- Modelled from the spec: `GPIO_MODER_MODE6` of the absent `stm32l0xx.h`. -/
def GPIO_MODER_MODE6 : Nat := 0x3000
/-- Modelled from the spec: `GPIO_MODER_MODE6_1` of the absent `stm32l0xx.h`. -/
def GPIO_MODER_MODE6_1 : Nat := 0x2000
/-- Modelled from the spec: `GPIO_MODER_MODE7` of the absent `stm32l0xx.h`. -/
def GPIO_MODER_MODE7 : Nat := 0xC000
/-- Modelled from the spec: `GPIO_MODER_MODE7_1` of the absent `stm32l0xx.h`. -/
def GPIO_MODER_MODE7_1 : Nat := 0x8000
/-- Modelled from the spec: `GPIO_MODER_MODE12` of the absent `stm32l0xx.h`. -/
def GPIO_MODER_MODE12 : Nat := 0x03000000
/-- Modelled from the spec: `GPIO_MODER_MODE12_1` of the absent `stm32l0xx.h`. -/
def GPIO_MODER_MODE12_1 : Nat := 0x02000000
/-- Modelled from the spec: `GPIO_MODER_MODE13` of the absent `stm32l0xx.h`. -/
def GPIO_MODER_MODE13 : Nat := 0x0C000000
/-- Modelled from the spec: `GPIO_MODER_MODE13_1` of the absent `stm32l0xx.h`. -/
def GPIO_MODER_MODE13_1 : Nat := 0x08000000
/-- Modelled from the spec: `GPIO_MODER_MODE14` of the absent `stm32l0xx.h`. -/
def GPIO_MODER_MODE14 : Nat := 0x30000000
/-- Modelled from the spec: `GPIO_MODER_MODE14_1` of the absent `stm32l0xx.h`. -/
def GPIO_MODER_MODE14_1 : Nat := 0x20000000
/-- Modelled from the spec: `GPIO_MODER_MODE15` of the absent `stm32l0xx.h`. -/
def GPIO_MODER_MODE15 : Nat := 0xC0000000
/-- Modelled from the spec: `GPIO_MODER_MODE15_1` of the absent `stm32l0xx.h`. -/
def GPIO_MODER_MODE15_1 : Nat := 0x80000000
/-- Modelled from the spec: `SPI_CR1_MSTR` of the absent `stm32l0xx.h`. -/
def SPI_CR1_MSTR : Nat := 0x4
/-- Modelled from the spec: `SPI_CR1_BR` of the absent `stm32l0xx.h`. -/
def SPI_CR1_BR : Nat := 0x38
/-- Modelled from the spec: `SPI_CR1_SPE` of the absent `stm32l0xx.h`. -/
def SPI_CR1_SPE : Nat := 0x40
/-- Modelled from the spec: `SPI_CR2_SSOE` of the absent `stm32l0xx.h`. -/
def SPI_CR2_SSOE : Nat := 0x4
/-- Modelled from the spec: `SPI_CR2_RXNEIE` of the absent `stm32l0xx.h`. -/
def SPI_CR2_RXNEIE : Nat := 0x40
/-- Modelled from the spec: `SYSCFG_EXTICR1_EXTI0` of the absent `stm32l0xx.h`. -/
def SYSCFG_EXTICR1_EXTI0 : Nat := 0xF
/-- Modelled from the spec: `SYSCFG_EXTICR1_EXTI0_PA` of the absent `stm32l0xx.h`. -/
def SYSCFG_EXTICR1_EXTI0_PA : Nat := 0x0
/-- Modelled from the spec: `EXTI_IMR_IM0` of the absent `stm32l0xx.h`. -/
def EXTI_IMR_IM0 : Nat := 0x1
/-- Modelled from the spec: `EXTI_RTSR_TR0` of the absent `stm32l0xx.h`. -/
def EXTI_RTSR_TR0 : Nat := 0x1

/-- Configuration registers written by `SysTick_Config`, the `Configure_*` functions and
`NVIC_SetPriority`. -/
structure Setup where
  /-- Register `SysTick->LOAD`, the reload value of the tick timer. -/
  SysTick_LOAD : Nat
  /-- Register `RCC->IOPENR` -/
  RCC_IOPENR : Nat
  /-- Register `RCC->APB2ENR` -/
  RCC_APB2ENR : Nat
  /-- Register `GPIOA->MODER` -/
  GPIOA_MODER : Nat
  /-- Register `GPIOB->MODER` -/
  GPIOB_MODER : Nat
  /-- Register `GPIOA->AFR[0]` -/
  GPIOA_AFR0 : Nat
  /-- Register `GPIOB->AFR[0]` -/
  GPIOB_AFR0 : Nat
  /-- Register `GPIOB->AFR[1]` -/
  GPIOB_AFR1 : Nat
  /-- Register `SPI1->CR1` -/
  SPI1_CR1 : Nat
  /-- Register `SPI1->CR2` -/
  SPI1_CR2 : Nat
  /-- Register `SPI2->CR1` -/
  SPI2_CR1 : Nat
  /-- Register `SPI2->CR2` -/
  SPI2_CR2 : Nat
  /-- Register `SYSCFG->EXTICR[0]` -/
  SYSCFG_EXTICR0 : Nat
  /-- Register `EXTI->IMR` -/
  EXTI_IMR : Nat
  /-- Register `EXTI->RTSR` -/
  EXTI_RTSR : Nat
  /-- NVIC priority of `EXTI0_1_IRQn`. -/
  NVIC_IP_EXTI0_1 : Nat
  /-- NVIC priority of `SPI1_IRQn`. -/
  NVIC_IP_SPI1 : Nat
  /-- NVIC priority of `SPI2_IRQn`. -/
  NVIC_IP_SPI2 : Nat
  deriving DecidableEq

/-- The whole machine during start-up: the program state and the configuration registers. -/
structure Board where
  /-- Program state. -/
  st : State
  /-- Configuration registers. -/
  regs : Setup
  deriving DecidableEq

/-- Modelled from the spec: the CMSIS function `SysTick_Config` is not among the sources; it
programs the tick timer to fire every `ticks` clock cycles (reload value `ticks - 1`). -/
def SysTick_Config (ticks : Nat) (b : Board) : Board :=
  { b with regs := { b.regs with SysTick_LOAD := ticks - 1 } }

/-- Modelled from the spec: the CMSIS function `NVIC_SetPriority` is not among the sources;
it sets the priority of the given interrupt source. -/
def NVIC_SetPriority (n : IRQn) (priority : Nat) (b : Board) : Board :=
  match n with
  | .EXTI0_1_IRQn => { b with regs := { b.regs with NVIC_IP_EXTI0_1 := priority } }
  | .SPI1_IRQn => { b with regs := { b.regs with NVIC_IP_SPI1 := priority } }
  | .SPI2_IRQn => { b with regs := { b.regs with NVIC_IP_SPI2 := priority } }

/-- C function `__INLINE void Configure_GPIO_LED(void)`, `main.c` lines 249-259. -/
def Configure_GPIO_LED (b : Board) : Board :=
  let r := b.regs
  let r1 := { r with RCC_IOPENR := r.RCC_IOPENR ||| (RCC_IOPENR_GPIOAEN ||| RCC_IOPENR_GPIOBEN) }
  let r2 := { r1 with GPIOA_MODER :=
    (r1.GPIOA_MODER &&& not32 GPIO_MODER_MODE5) ||| GPIO_MODER_MODE5_0 }
  let r3 := { r2 with GPIOB_MODER :=
    (r2.GPIOB_MODER &&& not32 GPIO_MODER_MODE4) ||| GPIO_MODER_MODE4_0 }
  { b with regs := r3 }

/-- C function `__INLINE void Configure_GPIO_SPI1(void)`, `main.c` lines 268-288. -/
def Configure_GPIO_SPI1 (b : Board) : Board :=
  let r := b.regs
  let r1 := { r with RCC_IOPENR := r.RCC_IOPENR ||| RCC_IOPENR_GPIOAEN }
  let r2 := { r1 with RCC_IOPENR := r1.RCC_IOPENR ||| RCC_IOPENR_GPIOBEN }
  let r3 := { r2 with GPIOA_MODER :=
    (r2.GPIOA_MODER &&& not32 (GPIO_MODER_MODE4 ||| GPIO_MODER_MODE6 ||| GPIO_MODER_MODE7))
      ||| (GPIO_MODER_MODE4_1 ||| GPIO_MODER_MODE6_1 ||| GPIO_MODER_MODE7_1) }
  let r4 := { r3 with GPIOA_AFR0 :=
    r3.GPIOA_AFR0 &&& not32 ((0xF <<< (4 * 4)) ||| (0xF <<< (4 * 6)) ||| (0xF <<< (4 * 7))) }
  let r5 := { r4 with GPIOB_MODER :=
    (r4.GPIOB_MODER &&& not32 GPIO_MODER_MODE3) ||| GPIO_MODER_MODE3_1 }
  let r6 := { r5 with GPIOB_AFR0 := r5.GPIOB_AFR0 &&& not32 (0xF <<< (4 * 3)) }
  { b with regs := r6 }

/-- C function `__INLINE void Configure_SPI1(void)`, `main.c` lines 295-314. -/
def Configure_SPI1 (b : Board) : Board :=
  let r := b.regs
  let r1 := { r with RCC_APB2ENR := r.RCC_APB2ENR ||| RCC_APB2ENR_SPI1EN }
  let r2 := { r1 with SPI1_CR1 := SPI_CR1_MSTR ||| SPI_CR1_BR }
  let r3 := { r2 with SPI1_CR2 := SPI_CR2_SSOE ||| SPI_CR2_RXNEIE }
  let r4 := { r3 with SPI1_CR1 := r3.SPI1_CR1 ||| SPI_CR1_SPE }
  let b1 := NVIC_SetPriority .SPI1_IRQn 0 { b with regs := r4 }
  { b1 with st := NVIC_EnableIRQ .SPI1_IRQn b1.st }

/-- C function `__INLINE void Configure_GPIO_SPI2(void)`, `main.c` lines 323-338. -/
def Configure_GPIO_SPI2 (b : Board) : Board :=
  let r := b.regs
  let r1 := { r with RCC_IOPENR := r.RCC_IOPENR ||| RCC_IOPENR_GPIOBEN }
  let r2 := { r1 with GPIOB_MODER :=
    (r1.GPIOB_MODER &&& not32 (GPIO_MODER_MODE12 ||| GPIO_MODER_MODE13 |||
                               GPIO_MODER_MODE14 ||| GPIO_MODER_MODE15))
      ||| (GPIO_MODER_MODE12_1 ||| GPIO_MODER_MODE13_1 |||
           GPIO_MODER_MODE14_1 ||| GPIO_MODER_MODE15_1) }
  let r3 := { r2 with GPIOB_AFR1 :=
    r2.GPIOB_AFR1 &&& not32 ((0xF <<< (4 * 4)) ||| (0xF <<< (4 * 5)) |||
                             (0xF <<< (4 * 6)) ||| (0xF <<< (4 * 7))) }
  { b with regs := r3 }

/-- C function `__INLINE void Configure_SPI2(void)`, `main.c` lines 345-362. -/
def Configure_SPI2 (b : Board) : Board :=
  let b1 := { b with st := { b.st with RCC_APB1ENR := b.st.RCC_APB1ENR ||| RCC_APB1ENR_SPI2EN } }
  let r := b1.regs
  let r1 := { r with SPI2_CR2 := SPI_CR2_RXNEIE }
  let r2 := { r1 with SPI2_CR1 := r1.SPI2_CR1 ||| SPI_CR1_SPE }
  let b2 := NVIC_SetPriority .SPI2_IRQn 0 { b1 with regs := r2 }
  { b2 with st := NVIC_EnableIRQ .SPI2_IRQn b2.st }

/-- C function `__INLINE void Configure_GPIO_Button(void)`, `main.c` lines 371-379. -/
def Configure_GPIO_Button (b : Board) : Board :=
  let r := b.regs
  let r1 := { r with RCC_IOPENR := r.RCC_IOPENR ||| RCC_IOPENR_GPIOAEN }
  let r2 := { r1 with GPIOA_MODER := r1.GPIOA_MODER &&& not32 GPIO_MODER_MODE0 }
  { b with regs := r2 }

/-- C function `__INLINE void Configure_EXTI(void)`, `main.c` lines 386-399. -/
def Configure_EXTI (b : Board) : Board :=
  let r := b.regs
  let r1 := { r with SYSCFG_EXTICR0 :=
    (r.SYSCFG_EXTICR0 &&& not32 SYSCFG_EXTICR1_EXTI0) ||| SYSCFG_EXTICR1_EXTI0_PA }
  let r2 := { r1 with EXTI_IMR := r1.EXTI_IMR ||| EXTI_IMR_IM0 }
  let r3 := { r2 with EXTI_RTSR := r2.EXTI_RTSR ||| EXTI_RTSR_TR0 }
  let b1 := NVIC_SetPriority .EXTI0_1_IRQn 0 { b with regs := r3 }
  { b1 with st := NVIC_EnableIRQ .EXTI0_1_IRQn b1.st }

/-- Where `main` is once the observations are used up. -/
inductive Startup where
  /-- Still inside a wait loop of `SystemClock_Config`. -/
  | clockPolling (b : Board)
  /-- In the endless loop of lines 146-148, entered because `error != 0`. -/
  | halted (b : Board)
  /-- At the top of the main loop (line 163), every peripheral configured. -/
  | mainLoop (b : Board) (rest : List Obs)
  deriving DecidableEq

/-- The board of a start-up outcome. -/
def Startup.board : Startup → Board
  | .clockPolling b => b
  | .halted b => b
  | .mainLoop b _ => b

/-- C function `int main(void)` up to its main loop, `main.c` lines 141-158. -/
def main (b : Board) (env : List Obs) : Startup :=
  let b1 := SysTick_Config 2000 b
  match SystemClock_Config b1.st env with
  | .polling t => .clockPolling { b1 with st := t }
  | .returned t rest =>
    let b2 := Configure_GPIO_LED { b1 with st := t }
    if b2.st.error ≠ 0 then .halted b2
    else
      let b3 := SysTick_Config 16000 b2
      let b4 := Configure_GPIO_SPI1 b3
      let b5 := Configure_SPI1 b4
      let b6 := Configure_GPIO_SPI2 b5
      let b7 := Configure_SPI2 b6
      let b8 := Configure_GPIO_Button b7
      let b9 := Configure_EXTI b8
      .mainLoop b9 rest

/-- Every configuration register zero. -/
def Setup.reset : Setup :=
  { SysTick_LOAD := 0, RCC_IOPENR := 0, RCC_APB2ENR := 0, GPIOA_MODER := 0, GPIOB_MODER := 0,
    GPIOA_AFR0 := 0, GPIOB_AFR0 := 0, GPIOB_AFR1 := 0, SPI1_CR1 := 0, SPI1_CR2 := 0,
    SPI2_CR1 := 0, SPI2_CR2 := 0, SYSCFG_EXTICR0 := 0, EXTI_IMR := 0, EXTI_RTSR := 0,
    NVIC_IP_EXTI0_1 := 0, NVIC_IP_SPI1 := 0, NVIC_IP_SPI2 := 0 }

/-- The board when `main` is entered. -/
def Board.reset : Board := { st := State.reset, regs := Setup.reset }

/-! ## Observations of a wait -/

/-- Total number of SysTick firings over a list of observations. -/
def ticksOf : List Obs → Nat
  | [] => 0
  | o :: rest => o.ticks + ticksOf rest

/-- The status awaited by wait (4): `HSIRDY` and `HSIDIVF` both set in `RCC->CR`. -/
def hsiReady (cr : Nat) : Bool :=
  decide (cr &&& (RCC_CR_HSIRDY ||| RCC_CR_HSIDIVF) = (RCC_CR_HSIRDY ||| RCC_CR_HSIDIVF))

/-- The status awaited by wait (7): `PLLRDY` set in `RCC->CR`. -/
def pllReady (cr : Nat) : Bool := decide (cr &&& RCC_CR_PLLRDY ≠ 0)

/-- The status awaited by wait (9): a bit of `SWS_PLL` set in `RCC->CFGR`. -/
def clockSwitched (cfgr : Nat) : Bool := decide (cfgr &&& RCC_CFGR_SWS_PLL ≠ 0)

/-- The registers and NVIC enables that `SysTick_Handler` never writes. -/
def State.static (s : State) : Nat × Nat × Nat × Nat × Bool × Bool × Bool :=
  (s.RCC_APB1ENR, s.PWR_CR, s.RCC_CR, s.RCC_CFGR, s.NVIC_EXTI0_1, s.NVIC_SPI1, s.NVIC_SPI2)

/-! ## Firings of `SysTick_Handler` with `error` written in between -/

/-- The state after `n` firings of `SysTick_Handler`, firing `k` (counted from 0) seeing
the value `errs k` in `error`: any component may write `error` between two firings. -/
def firingsWith (errs : Nat → Nat) : Nat → State → State
  | 0, s => s
  | n + 1, s => SysTick_Handler { firingsWith errs n s with error := errs n }

/-! ## The stages of `SystemClock_Config`, named for the proofs -/

/-- The register writes (1), (2), (3) of `SystemClock_Config`. -/
def clockStage1 (s : State) : State :=
  { s with RCC_APB1ENR := s.RCC_APB1ENR ||| RCC_APB1ENR_PWREN,
           PWR_CR := (s.PWR_CR &&& not32 PWR_CR_VOS) ||| PWR_CR_VOS_0,
           RCC_CR := s.RCC_CR ||| (RCC_CR_HSION ||| RCC_CR_HSIDIVEN) }

/-- The register writes (5), (6) of `SystemClock_Config`. -/
def clockStage2 (t : State) : State :=
  { t with RCC_CFGR :=
             t.RCC_CFGR ||| (RCC_CFGR_PLLSRC_HSI ||| RCC_CFGR_PLLMUL8 ||| RCC_CFGR_PLLDIV2),
           RCC_CR := t.RCC_CR ||| RCC_CR_PLLON }

/-- The register write (8) of `SystemClock_Config`. -/
def clockStage3 (u : State) : State :=
  { u with RCC_CFGR := u.RCC_CFGR ||| RCC_CFGR_SW_PLL }

/-- Wait (4) of `SystemClock_Config`, entered in state `s`. -/
def hsiWait (s : State) (env : List Obs) : Wait :=
  waitLoop hsiReady HSI_TIMEOUT_VALUE s.Tick s env

/-- Wait (7) of `SystemClock_Config`, entered in state `t`. -/
def pllWait (t : State) (env : List Obs) : Wait :=
  waitLoop pllReady PLL_TIMEOUT_VALUE t.Tick t env

/-- Wait (9) of `SystemClock_Config`, entered in state `u`. -/
def switchWait (u : State) (env : List Obs) : Wait :=
  waitLoop clockSwitched CLOCKSWITCH_TIMEOUT_VALUE u.Tick u env

/-- The awaited status is not observed over `pre`, during which more than `T` ticks elapse
(fewer than `2 ^ 32`). -/
def notObservedIn (ready : Nat → Bool) (T : Nat) (pre : List Obs) : Prop :=
  (∀ x ∈ pre, ready x.reg = false) ∧ T < ticksOf pre ∧ ticksOf pre < 2 ^ 32

/-- The awaited status is observed at `o`, after the observations `pre` without it, over
which at most `T` ticks elapse. -/
def observedAt (ready : Nat → Bool) (T : Nat) (pre : List Obs) (o : Obs) : Prop :=
  (∀ x ∈ pre, ready x.reg = false) ∧ ticksOf pre ≤ T ∧ ready o.reg = true

/-! ## Sample states -/

/-- Both completion flags set and both received bytes as expected. -/
def sampleMatch : State :=
  { State.running with SPI1_ByteReceived := 1, SPI2_ByteReceived := 1,
                       SPI1_Data := 0xDE, SPI2_Data := 0xCA }

/-- A byte has arrived on SPI1 (RXNE set) and none on SPI2 (RXNE clear). -/
def sampleRx : State := { State.running with SPI1_SR := 1, SPI1_DR := 0x1DE, SPI2_SR := 2 }

/-- A button edge is pending while the SPI1 transmit buffer is not empty (TXE clear). -/
def sampleBusy : State := { State.running with EXTI_PR := 1, SPI1_SR := 0 }

/-- A button edge is pending and the SPI1 transmit buffer is empty (TXE set). -/
def samplePress : State := { State.running with EXTI_PR := 1, SPI1_SR := 2 }

/-- The long counter has just run out with `error = ERROR_PLL_TIMEOUT` (3). -/
def sampleErr3 : State := { State.running with long_counter := 0, error := 3 }

/-- The long counter has just run out with `error = 6`. -/
def sampleErr6 : State := { State.running with long_counter := 0, error := 6 }

/-- A burst for `error = 3` is under way (budget 5, short counter about to expire, long
counter at 1801), and `error` has just been changed to 1. -/
def sampleStale : State :=
  { State.running with error := 1, long_counter := 1801, short_counter := 0, error_temp := 5 }

/-- The value of `Tick` is three firings away from wrapping. -/
def sampleWrap : State := { State.running with Tick := 2 ^ 32 - 3 }

/-- The SPI1 interrupt fires with RXNE clear while a complete earlier transfer is waiting
for the verifier. -/
def sampleFault : State :=
  { State.running with SPI1_SR := 0, SPI1_ByteReceived := 1, SPI2_ByteReceived := 1,
                       SPI1_Data := 0xDE, SPI2_Data := 0xCA }

/-- Observations for `SystemClock_Config`: the HSI never becomes ready while SysTick fires
60 times before each poll. -/
def sampleHsiDead : List Obs := [⟨60, 0⟩, ⟨60, 0⟩, ⟨60, 0⟩]

/-- After the fault of `sampleFault`: the hardware raises a new button edge and presents new
bytes with RXNE set on both channels, the trigger handler runs, then the verifier. -/
def sampleAfterFault : State :=
  verifier (EXTI0_1_IRQHandler
    { SPI1_IRQHandler sampleFault with
        EXTI_PR := 1, SPI1_SR := 3, SPI1_DR := 0x55, SPI2_SR := 3, SPI2_DR := 0x66 })

/-- A schedule in which the SPI1 interrupt of cycle 2 is taken before the verifier starts
its pass on the flags of cycle 1, and no interrupt is taken during the pass. -/
def sampleOverwrite : List Event := [.irq1 2 0x55, .main, .main, .main, .main, .main, .main]

/-- The reporter is idle in the middle of a long cycle and `error` has just been set to
`ERROR_SPI`. -/
def sampleIdle : State := { State.running with error := 1, long_counter := 500 }

/-- The long counter has just run out with `error = 0xFF` and nothing left to emit. -/
def sampleSentinel : State := { State.running with long_counter := 0, error := 0xFF }

/-- The long counter has just run out with `error = 0xFF` while one transition of an earlier
burst is still budgeted and due. -/
def sampleSentinelDue : State :=
  { State.running with long_counter := 0, error := 0xFF, error_temp := 1, short_counter := 0 }

/-- Observations in which every wait sees its status at the second poll. -/
def sampleClockOk : List Obs :=
  [⟨1, 0⟩, ⟨1, 0x14⟩, ⟨1, 0x14⟩, ⟨1, 0x02000014⟩, ⟨1, 0⟩, ⟨1, 0xC⟩]

/-- The state in which `SystemClock_Config` returns from `State.reset` with the HSI dead. -/
def sampleHsiHalt : State := (SystemClock_Config State.reset sampleHsiDead).state

/-! ## Theorems -/

/-! ## Bit-level facts -/

/-- Bits of a register after `clearBits`. -/
theorem testBit_clearBits (r m i : Nat) :
    (clearBits r m).testBit i = (r.testBit i && !m.testBit i) := by
  unfold clearBits
  rw [Nat.testBit_xor, Nat.testBit_and]
  cases r.testBit i <;> cases m.testBit i <;> rfl

/-- The C test `(r & 1) == 1` reads bit 0. -/
theorem and_one_eq_one_iff (r : Nat) : r &&& 1 = 1 ↔ r.testBit 0 = true := by
  rw [Nat.and_one_is_mod, Nat.testBit_zero]
  simp

/-- The C test `(r & 2) == 2` reads bit 1. -/
theorem and_two_eq_two_iff (r : Nat) : r &&& 2 = 2 ↔ r.testBit 1 = true := by
  constructor
  · intro h
    have := congrArg (fun x => x.testBit 1) h
    have h2 : Nat.testBit 2 1 = true := by decide
    simpa [Nat.testBit_and, h2] using this
  · intro h
    apply Nat.eq_of_testBit_eq
    intro i
    rw [Nat.testBit_and]
    rcases i with _ | _ | i
    · simp
    · simp [h]
    · have : Nat.testBit 2 (i + 2) = false := by
        simp [Nat.testBit_succ]
      simp [this]

/-- The statement `ODR ^= (1 << 4)` flips bit 4. -/
theorem xor_testBit_four (r : Nat) : (r ^^^ (1 <<< 4)).testBit 4 = !r.testBit 4 := by
  rw [Nat.testBit_xor]
  have : Nat.testBit (1 <<< 4) 4 = true := by decide
  rw [this]; cases r.testBit 4 <;> rfl

/-- C1: Transfer Verifier step (the body of the main loop).  When both completion flags are
nonzero, both are cleared and, if `SPI1_Data = 0xDE` and `SPI2_Data = 0xCA`, bit 4 of
`GPIOB->ODR` (the green LED) is toggled and `error` is unchanged; otherwise `error` becomes
`ERROR_SPI` (1) and the green LED is unchanged.  When the flags are not both set, the step
changes nothing. -/
theorem verifier_step (s : State) :
    (s.SPI1_ByteReceived ≠ 0 ∧ s.SPI2_ByteReceived ≠ 0 →
      (verifier s).SPI1_ByteReceived = 0 ∧ (verifier s).SPI2_ByteReceived = 0 ∧
      (s.SPI1_Data = 0xDE ∧ s.SPI2_Data = 0xCA →
        verifier s = { s with SPI1_ByteReceived := 0, SPI2_ByteReceived := 0,
                              GPIOB_ODR := s.GPIOB_ODR ^^^ 2 ^ 4 } ∧
        greenOn (verifier s) = !greenOn s ∧ (verifier s).error = s.error) ∧
      (¬(s.SPI1_Data = 0xDE ∧ s.SPI2_Data = 0xCA) →
        verifier s = { s with SPI1_ByteReceived := 0, SPI2_ByteReceived := 0, error := 1 } ∧
        (verifier s).error = ERROR_SPI ∧ greenOn (verifier s) = greenOn s)) ∧
    (¬(s.SPI1_ByteReceived ≠ 0 ∧ s.SPI2_ByteReceived ≠ 0) → verifier s = s) := by
  refine ⟨fun hf => ⟨?_, ?_, fun hm => ?_, fun hm => ?_⟩, fun hf => ?_⟩
  · unfold verifier; rw [if_pos hf]; dsimp only; split <;> rfl
  · unfold verifier; rw [if_pos hf]; dsimp only; split <;> rfl
  · have hm2 : s.SPI1_Data = SPI2_DATA ∧ s.SPI2_Data = SPI1_DATA := hm
    refine ⟨?_, ?_, ?_⟩ <;> unfold verifier <;> rw [if_pos hf] <;> dsimp only <;>
      rw [if_pos hm2]
    · rfl
    · exact xor_testBit_four s.GPIOB_ODR
  · have hm2 : ¬(s.SPI1_Data = SPI2_DATA ∧ s.SPI2_Data = SPI1_DATA) := hm
    refine ⟨?_, ?_, ?_⟩ <;> unfold verifier <;> rw [if_pos hf] <;> dsimp only <;>
      rw [if_neg hm2] <;> rfl
  · unfold verifier; rw [if_neg hf]

/-- The verifier step at `sampleMatch`: the green LED is toggled and `error` is unchanged. -/
theorem verifier_step_witness :
    greenOn (verifier sampleMatch) = !greenOn sampleMatch ∧
    (verifier sampleMatch).error = sampleMatch.error :=
  (((verifier_step sampleMatch).1 (by decide)).2.2.1 (by decide)).2

/-- The data branch of `SPI1_IRQHandler`. -/
theorem SPI1_IRQHandler_rxne (s : State) (h : s.SPI1_SR.testBit 0 = true) :
    SPI1_IRQHandler s =
      { s with SPI1_ByteReceived := 1, SPI1_Data := s.SPI1_DR % 2 ^ 8,
               SPI1_SR := clearBits s.SPI1_SR SPI_SR_RXNE } := by
  have h1 : s.SPI1_SR &&& SPI_SR_RXNE = SPI_SR_RXNE := (and_one_eq_one_iff _).2 h
  unfold SPI1_IRQHandler; rw [if_pos h1]

/-- The fault branch of `SPI1_IRQHandler`. -/
theorem SPI1_IRQHandler_fault (s : State) (h : s.SPI1_SR.testBit 0 = false) :
    SPI1_IRQHandler s = { s with error := ERROR_SPI, NVIC_SPI1 := false } := by
  have h1 : ¬ (s.SPI1_SR &&& SPI_SR_RXNE = SPI_SR_RXNE) := by
    intro hc; rw [(and_one_eq_one_iff _).1 hc] at h; cases h
  unfold SPI1_IRQHandler; rw [if_neg h1]; rfl

/-- The data branch of `SPI2_IRQHandler`. -/
theorem SPI2_IRQHandler_rxne (s : State) (h : s.SPI2_SR.testBit 0 = true) :
    SPI2_IRQHandler s =
      { s with SPI2_ByteReceived := 1, SPI2_Data := s.SPI2_DR % 2 ^ 8,
               SPI2_SR := clearBits s.SPI2_SR SPI_SR_RXNE } := by
  have h1 : s.SPI2_SR &&& SPI_SR_RXNE = SPI_SR_RXNE := (and_one_eq_one_iff _).2 h
  unfold SPI2_IRQHandler; rw [if_pos h1]

/-- The fault branch of `SPI2_IRQHandler`. -/
theorem SPI2_IRQHandler_fault (s : State) (h : s.SPI2_SR.testBit 0 = false) :
    SPI2_IRQHandler s = { s with error := ERROR_SPI, NVIC_SPI2 := false } := by
  have h1 : ¬ (s.SPI2_SR &&& SPI_SR_RXNE = SPI_SR_RXNE) := by
    intro hc; rw [(and_one_eq_one_iff _).1 hc] at h; cases h
  unfold SPI2_IRQHandler; rw [if_neg h1]; rfl

/-- C2: Channel Receive Handler, for both channels.  With RXNE (bit 0 of the status
register) set, the handler stores the low 8 bits of the data register in the received byte
and sets the completion flag to 1, leaving `error` and the NVIC enable unchanged; with RXNE
clear it sets `error` to `ERROR_SPI` (1) and disables the channel interrupt, leaving the
received byte and the completion flag unchanged. -/
theorem channel_receive_handler (s : State) :
    (s.SPI1_SR.testBit 0 = true →
      (SPI1_IRQHandler s).SPI1_Data = s.SPI1_DR % 2 ^ 8 ∧
      (SPI1_IRQHandler s).SPI1_ByteReceived = 1 ∧
      (SPI1_IRQHandler s).error = s.error ∧
      (SPI1_IRQHandler s).NVIC_SPI1 = s.NVIC_SPI1) ∧
    (s.SPI1_SR.testBit 0 = false →
      (SPI1_IRQHandler s).error = 1 ∧
      (SPI1_IRQHandler s).NVIC_SPI1 = false ∧
      (SPI1_IRQHandler s).SPI1_Data = s.SPI1_Data ∧
      (SPI1_IRQHandler s).SPI1_ByteReceived = s.SPI1_ByteReceived) ∧
    (s.SPI2_SR.testBit 0 = true →
      (SPI2_IRQHandler s).SPI2_Data = s.SPI2_DR % 2 ^ 8 ∧
      (SPI2_IRQHandler s).SPI2_ByteReceived = 1 ∧
      (SPI2_IRQHandler s).error = s.error ∧
      (SPI2_IRQHandler s).NVIC_SPI2 = s.NVIC_SPI2) ∧
    (s.SPI2_SR.testBit 0 = false →
      (SPI2_IRQHandler s).error = 1 ∧
      (SPI2_IRQHandler s).NVIC_SPI2 = false ∧
      (SPI2_IRQHandler s).SPI2_Data = s.SPI2_Data ∧
      (SPI2_IRQHandler s).SPI2_ByteReceived = s.SPI2_ByteReceived) := by
  refine ⟨fun h => ?_, fun h => ?_, fun h => ?_, fun h => ?_⟩
  · rw [SPI1_IRQHandler_rxne s h]; exact ⟨rfl, rfl, rfl, rfl⟩
  · rw [SPI1_IRQHandler_fault s h]; exact ⟨rfl, rfl, rfl, rfl⟩
  · rw [SPI2_IRQHandler_rxne s h]; exact ⟨rfl, rfl, rfl, rfl⟩
  · rw [SPI2_IRQHandler_fault s h]; exact ⟨rfl, rfl, rfl, rfl⟩

/-- The channel handlers at `sampleRx`: SPI1 stores its byte, SPI2 takes the fault branch. -/
theorem channel_receive_handler_witness :
    (SPI1_IRQHandler sampleRx).SPI1_Data = 0xDE ∧ (SPI2_IRQHandler sampleRx).NVIC_SPI2 = false :=
  ⟨((channel_receive_handler sampleRx).1 (by decide)).1,
   ((channel_receive_handler sampleRx).2.2.2 (by decide)).2.1⟩

/-- Edge pending and transmit buffer empty: the two bytes are written. -/
theorem EXTI0_1_IRQHandler_pending_txe (s : State) (hp : s.EXTI_PR.testBit 0 = true)
    (ht : s.SPI1_SR.testBit 1 = true) :
    EXTI0_1_IRQHandler s =
      { s with EXTI_PR := clearBits s.EXTI_PR EXTI_PR_PR0,
               SPI2_TX := SPI2_DATA :: s.SPI2_TX, SPI1_TX := SPI1_DATA :: s.SPI1_TX } := by
  have h1 : s.EXTI_PR &&& EXTI_PR_PR0 = EXTI_PR_PR0 := (and_one_eq_one_iff _).2 hp
  have h2 : s.SPI1_SR &&& SPI_SR_TXE = SPI_SR_TXE := (and_two_eq_two_iff _).2 ht
  unfold EXTI0_1_IRQHandler; rw [if_pos h1]; dsimp only; rw [if_pos h2]

/-- Edge pending and transmit buffer not empty: only the pending flag is cleared. -/
theorem EXTI0_1_IRQHandler_pending_busy (s : State) (hp : s.EXTI_PR.testBit 0 = true)
    (ht : s.SPI1_SR.testBit 1 = false) :
    EXTI0_1_IRQHandler s = { s with EXTI_PR := clearBits s.EXTI_PR EXTI_PR_PR0 } := by
  have h1 : s.EXTI_PR &&& EXTI_PR_PR0 = EXTI_PR_PR0 := (and_one_eq_one_iff _).2 hp
  have h2 : ¬ (s.SPI1_SR &&& SPI_SR_TXE = SPI_SR_TXE) := by
    intro hc; rw [(and_two_eq_two_iff _).1 hc] at ht; cases ht
  unfold EXTI0_1_IRQHandler; rw [if_pos h1]; dsimp only; rw [if_neg h2]

/-- No edge pending: the handler does nothing. -/
theorem EXTI0_1_IRQHandler_idle (s : State) (hp : s.EXTI_PR.testBit 0 = false) :
    EXTI0_1_IRQHandler s = s := by
  have h1 : ¬ (s.EXTI_PR &&& EXTI_PR_PR0 = EXTI_PR_PR0) := by
    intro hc; rw [(and_one_eq_one_iff _).1 hc] at hp; cases hp
  unfold EXTI0_1_IRQHandler; rw [if_neg h1]

/-- Clearing mask 1 clears bit 0 and leaves the other bits. -/
theorem clearBits_one_testBit (r i : Nat) :
    (clearBits r 1).testBit i = (r.testBit i && decide (i ≠ 0)) := by
  rw [testBit_clearBits]
  rcases i with _ | i
  · simp
  · have : Nat.testBit 1 (i + 1) = false := by simp [Nat.testBit_succ]
    simp [this]

/-- C3 as stated fails: with the button edge pending but TXE of SPI1 clear, the handler
writes no byte to either data register. -/
theorem transfer_trigger_counterexample :
    ¬ (∀ s : State, s.EXTI_PR.testBit 0 = true →
        (EXTI0_1_IRQHandler s).EXTI_PR.testBit 0 = false ∧
        (EXTI0_1_IRQHandler s).SPI2_TX = 0xDE :: s.SPI2_TX ∧
        (EXTI0_1_IRQHandler s).SPI1_TX = 0xCA :: s.SPI1_TX) := by
  intro h
  have h1 := (h sampleBusy (by decide)).2.2
  revert h1
  decide

/-- C3 amended: when the pending flag of the button (bit 0 of `EXTI->PR`) is set, the
handler clears it, leaving the other pending bits alone, and then, if TXE (bit 1 of
`SPI1->SR`) is set, writes 0xDE to the SPI2 data register and 0xCA to the SPI1 data
register; if TXE is clear it writes to neither.  When the pending flag is not set the
handler changes nothing. -/
theorem transfer_trigger (s : State) :
    (s.EXTI_PR.testBit 0 = true →
      (EXTI0_1_IRQHandler s).EXTI_PR.testBit 0 = false ∧
      (∀ i, i ≠ 0 → (EXTI0_1_IRQHandler s).EXTI_PR.testBit i = s.EXTI_PR.testBit i) ∧
      (s.SPI1_SR.testBit 1 = true →
        (EXTI0_1_IRQHandler s).SPI2_TX = 0xDE :: s.SPI2_TX ∧
        (EXTI0_1_IRQHandler s).SPI1_TX = 0xCA :: s.SPI1_TX) ∧
      (s.SPI1_SR.testBit 1 = false →
        (EXTI0_1_IRQHandler s).SPI2_TX = s.SPI2_TX ∧
        (EXTI0_1_IRQHandler s).SPI1_TX = s.SPI1_TX)) ∧
    (s.EXTI_PR.testBit 0 = false → EXTI0_1_IRQHandler s = s) := by
  refine ⟨fun hp => ?_, EXTI0_1_IRQHandler_idle s⟩
  have hpr : (EXTI0_1_IRQHandler s).EXTI_PR = clearBits s.EXTI_PR 1 := by
    cases ht : s.SPI1_SR.testBit 1
    · rw [EXTI0_1_IRQHandler_pending_busy s hp ht]; rfl
    · rw [EXTI0_1_IRQHandler_pending_txe s hp ht]; rfl
  refine ⟨?_, ?_, fun ht => ?_, fun ht => ?_⟩
  · rw [hpr, clearBits_one_testBit]; simp
  · intro i hi; rw [hpr, clearBits_one_testBit]; simp [hi]
  · rw [EXTI0_1_IRQHandler_pending_txe s hp ht]; exact ⟨rfl, rfl⟩
  · rw [EXTI0_1_IRQHandler_pending_busy s hp ht]; exact ⟨rfl, rfl⟩

/-- The trigger handler at `samplePress`: both bytes are written. -/
theorem transfer_trigger_witness :
    (EXTI0_1_IRQHandler samplePress).SPI2_TX = [0xDE] ∧
    (EXTI0_1_IRQHandler samplePress).SPI1_TX = [0xCA] :=
  ((transfer_trigger samplePress).1 (by decide)).2.2.1 (by decide)
/-! ## One firing of `SysTick_Handler`, case by case -/

/-- No wraparound when a nonzero `uint32_t` is decremented. -/
theorem dec32_pos (x : Nat) (h0 : x ≠ 0) (h : x < 2 ^ 32) : dec32 x = x - 1 := by
  unfold dec32; omega

/-- The handler increments `Tick` modulo `2 ^ 32`. -/
theorem SysTick_Handler_Tick (s : State) : (SysTick_Handler s).Tick = (s.Tick + 1) % 2 ^ 32 := by
  unfold SysTick_Handler; dsimp only; split_ifs <;> rfl

/-- The handler never writes `error`. -/
theorem SysTick_Handler_error (s : State) : (SysTick_Handler s).error = s.error := by
  unfold SysTick_Handler; dsimp only; split_ifs <;> rfl

/-- A firing with the long counter running and no budget left. -/
theorem SysTick_Handler_idle (s : State) (hl : s.long_counter ≠ 0) (he : s.error_temp = 0) :
    SysTick_Handler s = { s with Tick := inc32 s.Tick, long_counter := dec32 s.long_counter } := by
  unfold SysTick_Handler; dsimp only
  rw [if_neg hl, if_neg (by dsimp only; omega)]

/-- A firing inside a burst with the short counter running. -/
theorem SysTick_Handler_count (s : State) (hl : s.long_counter ≠ 0) (he : s.error_temp ≠ 0)
    (hs : s.short_counter ≠ 0) :
    SysTick_Handler s =
      { s with Tick := inc32 s.Tick, long_counter := dec32 s.long_counter,
               short_counter := dec32 s.short_counter } := by
  unfold SysTick_Handler; dsimp only
  rw [if_neg hl, if_pos (by dsimp only; omega)]; dsimp only; rw [if_neg hs]

/-- A firing inside a burst at which the short counter expires. -/
theorem SysTick_Handler_toggle (s : State) (hl : s.long_counter ≠ 0) (he : s.error_temp ≠ 0)
    (hs : s.short_counter = 0) :
    SysTick_Handler s =
      { s with Tick := inc32 s.Tick, long_counter := dec32 s.long_counter,
               GPIOA_ODR := s.GPIOA_ODR ^^^ (1 <<< 5), short_counter := SHORT_DELAY,
               error_temp := s.error_temp - 1, redToggles := s.redToggles + 1 } := by
  unfold SysTick_Handler; dsimp only
  rw [if_neg hl, if_pos (by dsimp only; omega)]; dsimp only; rw [if_pos hs]

/-- A firing at which the long counter expires with a reportable error. -/
theorem SysTick_Handler_expiry (s : State) (hl : s.long_counter = 0) (h0 : s.error ≠ 0)
    (hff : s.error ≠ 0xFF) :
    SysTick_Handler s =
      { s with Tick := inc32 s.Tick, long_counter := LONG_DELAY <<< 1,
               error_temp := ((s.error <<< 1) + (2 ^ 16 - 1)) % 2 ^ 16,
               short_counter := SHORT_DELAY - 1,
               GPIOA_ODR := s.GPIOA_ODR ||| (1 <<< 5),
               GPIOB_ODR := clearBits s.GPIOB_ODR (1 <<< 4) } := by
  have hT : ((s.error <<< 1) + (2 ^ 16 - 1)) % 2 ^ 16 > 0 := by
    rw [Nat.shiftLeft_eq]; omega
  unfold SysTick_Handler; dsimp only
  rw [if_pos hl, if_neg h0, if_pos hff]; dsimp only
  rw [if_pos hT, if_neg (by decide)]
  rfl

/-! ## A burst: the firings between two long-counter expiries -/

/-- Toggling twice restores the register. -/
theorem xor_xor_cancel (a b : Nat) : (a ^^^ b) ^^^ b = a := by
  rw [Nat.xor_assoc, Nat.xor_self, Nat.xor_zero]

/-- Closed form of the state `k ≤ 2000` firings after a long-counter expiry that started a
burst of `T` transitions: the long counter has counted down by `k`, and one transition has
been emitted every 201 firings (the first after 200) until the budget `T` was used up. -/
theorem burst_closed_form (s : State) (T : Nat) (hl : s.long_counter = 2000)
    (hs : s.short_counter = 199) (he : s.error_temp = T) (hT0 : 0 < T) (k : Nat) (hk : k ≤ 2000) :
    (SysTick_Handler^[k] s).long_counter = 2000 - k ∧
    (SysTick_Handler^[k] s).error_temp = T - min T ((k + 1) / 201) ∧
    (SysTick_Handler^[k] s).short_counter
      = (if T ≤ (k + 1) / 201 then 200 else 200 - (k + 1) % 201) ∧
    (SysTick_Handler^[k] s).redToggles = s.redToggles + min T ((k + 1) / 201) ∧
    (SysTick_Handler^[k] s).GPIOA_ODR
      = (if min T ((k + 1) / 201) % 2 = 0 then s.GPIOA_ODR else s.GPIOA_ODR ^^^ (1 <<< 5)) ∧
    (SysTick_Handler^[k] s).GPIOB_ODR = s.GPIOB_ODR := by
  induction k with
  | zero =>
    have hz : SysTick_Handler^[0] s = s := rfl
    rw [hz]
    have hm : min T ((0 + 1) / 201) = 0 := min_eq_right (by omega)
    rw [hm]
    refine ⟨by omega, by omega, ?_, by omega, rfl, rfl⟩
    rw [hs]; split_ifs <;> omega
  | succ k ih =>
    obtain ⟨h1, h2, h3, h4, h5, h6⟩ := ih (by omega)
    rw [Function.iterate_succ_apply']
    generalize SysTick_Handler^[k] s = u at h1 h2 h3 h4 h5 h6 ⊢
    have hl0 : u.long_counter ≠ 0 := by omega
    have hdl : dec32 u.long_counter = 2000 - (k + 1) := by
      rw [dec32_pos _ hl0 (by omega)]; omega
    by_cases hT : T ≤ (k + 1) / 201
    · -- budget used up: only the long counter moves
      have e1 : min T ((k + 1) / 201) = T := min_eq_left hT
      have e2 : min T ((k + 1 + 1) / 201) = T := min_eq_left (by omega)
      rw [e1] at h2 h4 h5
      rw [e2]
      have he0 : u.error_temp = 0 := by omega
      rw [SysTick_Handler_idle u hl0 he0]
      rw [if_pos hT] at h3
      refine ⟨hdl, ?_, ?_, ?_, ?_, h6⟩
      · show u.error_temp = _; omega
      · show u.short_counter = _; rw [if_pos (by omega)]; exact h3
      · show u.redToggles = _; omega
      · show u.GPIOA_ODR = _; exact h5
    · have e1 : min T ((k + 1) / 201) = (k + 1) / 201 := min_eq_right (by omega)
      have e2 : min T ((k + 1 + 1) / 201) = (k + 1 + 1) / 201 := min_eq_right (by omega)
      rw [e1] at h2 h4 h5
      rw [e2]
      have he0 : u.error_temp ≠ 0 := by omega
      rw [if_neg hT] at h3
      by_cases hz : u.short_counter = 0
      · -- the short counter expires: one transition
        rw [SysTick_Handler_toggle u hl0 he0 hz]
        refine ⟨hdl, ?_, ?_, ?_, ?_, h6⟩
        · show u.error_temp - 1 = _; omega
        · show SHORT_DELAY = _; unfold SHORT_DELAY; split_ifs <;> omega
        · show u.redToggles + 1 = _; omega
        · show u.GPIOA_ODR ^^^ (1 <<< 5) = _
          rw [h5]
          by_cases hp : (k + 1) / 201 % 2 = 0
          · rw [if_pos hp, if_neg (by omega)]
          · rw [if_neg hp, if_pos (by omega), xor_xor_cancel]
      · rw [SysTick_Handler_count u hl0 he0 hz]
        have e3 : (k + 1 + 1) / 201 = (k + 1) / 201 := by omega
        refine ⟨hdl, ?_, ?_, ?_, ?_, h6⟩
        · show u.error_temp = _; omega
        · show dec32 u.short_counter = _
          rw [dec32_pos _ hz (by omega), if_neg (by omega)]; omega
        · show u.redToggles = _; omega
        · show u.GPIOA_ODR = _; rw [e3]; exact h5

/-- No number of firings changes `error`. -/
theorem iterate_error (n : Nat) (s : State) : (SysTick_Handler^[n] s).error = s.error := by
  induction n with
  | zero => rfl
  | succ n ih => rw [Function.iterate_succ_apply', SysTick_Handler_error, ih]

/-- The value of `Tick` after `n` firings. -/
theorem iterate_Tick (n : Nat) (s : State) (h : s.Tick < 2 ^ 32) :
    (SysTick_Handler^[n] s).Tick = (s.Tick + n) % 2 ^ 32 := by
  induction n with
  | zero => show s.Tick = _; omega
  | succ n ih => rw [Function.iterate_succ_apply', SysTick_Handler_Tick, ih]; omega

/-- Writing `1 << 5` to `BSRR` sets bit 5. -/
theorem or_testBit_five (r : Nat) : (r ||| (1 <<< 5)).testBit 5 = true := by
  rw [Nat.testBit_or]
  have : Nat.testBit (1 <<< 5) 5 = true := by decide
  rw [this]; simp

/-- The statement `ODR ^= (1 << 5)` flips bit 5. -/
theorem xor_testBit_five (r : Nat) : (r ^^^ (1 <<< 5)).testBit 5 = !r.testBit 5 := by
  rw [Nat.testBit_xor]
  have : Nat.testBit (1 <<< 5) 5 = true := by decide
  rw [this]; cases r.testBit 5 <;> rfl

/-- Closed form of a whole long cycle started by an expiry that sees a reportable error:
the state `k + 1` firings after the state `s` in which the long counter is zero. -/
theorem cycle_closed_form (s : State) (T : Nat) (hl : s.long_counter = 0) (h0 : s.error ≠ 0)
    (hff : s.error ≠ 0xFF) (hT : T = ((s.error <<< 1) + (2 ^ 16 - 1)) % 2 ^ 16)
    (k : Nat) (hk : k ≤ 2000) :
    (SysTick_Handler^[k + 1] s).long_counter = 2000 - k ∧
    (SysTick_Handler^[k + 1] s).redToggles = s.redToggles + min T ((k + 1) / 201) ∧
    redOn (SysTick_Handler^[k + 1] s) = decide (min T ((k + 1) / 201) % 2 = 0) ∧
    (SysTick_Handler^[k + 1] s).error = s.error := by
  have hTpos : 0 < T := by rw [hT, Nat.shiftLeft_eq]; omega
  have hx := SysTick_Handler_expiry s hl h0 hff
  rw [← hT] at hx
  have hb := burst_closed_form (SysTick_Handler s) T (by rw [hx]; rfl) (by rw [hx]; rfl)
    (by rw [hx]) hTpos k hk
  rw [Function.iterate_succ_apply]
  obtain ⟨b1, -, -, b4, b5, -⟩ := hb
  refine ⟨b1, ?_, ?_, ?_⟩
  · rw [b4, hx]
  · unfold redOn; rw [b5, hx]
    show (if min T ((k + 1) / 201) % 2 = 0 then s.GPIOA_ODR ||| 1 <<< 5
      else (s.GPIOA_ODR ||| 1 <<< 5) ^^^ 1 <<< 5).testBit 5 = _
    split_ifs with hp
    · rw [or_testBit_five]; simp [hp]
    · rw [xor_testBit_five, or_testBit_five]; simp [hp]
  · rw [iterate_error, SysTick_Handler_error]

/-- The trace of the red LED, firing by firing. -/
theorem redTrace_eq (n : Nat) (s : State) :
    redTrace n s = (List.range n).map (fun k => redOn (SysTick_Handler^[k + 1] s)) := by
  induction n generalizing s with
  | zero => rfl
  | succ n ih =>
    rw [List.range_succ_eq_map, List.map_cons, List.map_map]
    show redOn (SysTick_Handler s) :: redTrace n (SysTick_Handler s) = _
    rw [ih]
    rfl

/-- On-phases of a trace extended by one sample. -/
theorem onPhases_concat (prev : Bool) (l : List Bool) (b : Bool) :
    onPhases prev (l ++ [b])
      = onPhases prev l + (if b && !(l.getLastD prev) then 1 else 0) := by
  induction l generalizing prev with
  | nil => simp [onPhases]
  | cons a l ih =>
    rw [List.cons_append, onPhases, ih, List.getLastD_cons, onPhases, Nat.add_assoc]

/-- Last sample of a signal tabulated over `0 .. n`. -/
theorem getLastD_map_range (g : Nat → Bool) (n : Nat) :
    ((List.range (n + 1)).map g).getLastD false = g n := by
  rw [List.range_succ, List.map_append, List.map_singleton, List.getLastD_concat]

/-- Number of on-phases among the first `n` values of a signal that starts on and changes
state every 201 samples (first after 200), `T` times in all. -/
theorem onPhases_square_wave (T n : Nat) :
    onPhases false ((List.range (n + 1)).map
        (fun k => decide (min T ((k + 1) / 201) % 2 = 0)))
      = 1 + min T ((n + 1) / 201) / 2 := by
  induction n with
  | zero =>
    have hm : min T ((0 + 1) / 201) = 0 := min_eq_right (by omega)
    simp [onPhases, hm]
  | succ n ih =>
    rw [List.range_succ, List.map_append, List.map_singleton, onPhases_concat, ih,
      getLastD_map_range]
    rcases Nat.lt_or_ge ((n + 1) / 201) T with hlt | hge
    · have e1 : min T ((n + 1) / 201) = (n + 1) / 201 := min_eq_right (by omega)
      have e2 : min T ((n + 1 + 1) / 201) = (n + 1 + 1) / 201 := min_eq_right (by omega)
      rw [e1, e2]
      by_cases hp : (n + 1 + 1) / 201 % 2 = 0
      · by_cases hq : (n + 1) / 201 % 2 = 0
        · simp only [hp, hq, decide_True, Bool.not_true, Bool.and_false]
          simp only [Bool.false_eq_true, if_false]; omega
        · simp only [hp, hq, decide_True, decide_False, Bool.not_false, Bool.and_true,
            if_true]
          omega
      · simp only [hp, decide_False, Bool.false_and, Bool.false_eq_true, if_false]
        omega
    · have e1 : min T ((n + 1) / 201) = T := min_eq_left hge
      have e2 : min T ((n + 1 + 1) / 201) = T := min_eq_left (by omega)
      rw [e1, e2]
      cases decide (T % 2 = 0) <;> simp

/-- On-phases of a complete long cycle for the codes 1 to 5. -/
theorem onPhases_table (e : Nat) (h1 : 1 ≤ e) (h5 : e ≤ 5) :
    onPhases false ((List.range 2001).map
        (fun k => decide (min (2 * e - 1) ((k + 1) / 201) % 2 = 0))) = e := by
  rw [onPhases_square_wave (2 * e - 1) 2000]
  have hm : min (2 * e - 1) ((2000 + 1) / 201) = 2 * e - 1 := min_eq_left (by omega)
  rw [hm]; omega

/-- Long-cycle boundaries: the long counter expires again exactly 2001 firings after an
expiry that saw a reportable error, and so at every multiple of 2001 firings. -/
theorem cycle_boundary (s : State) (hl : s.long_counter = 0) (h0 : s.error ≠ 0)
    (hff : s.error ≠ 0xFF) (m : Nat) :
    (SysTick_Handler^[2001 * m] s).long_counter = 0 ∧
    (SysTick_Handler^[2001 * m] s).error = s.error := by
  induction m with
  | zero => exact ⟨hl, rfl⟩
  | succ m ih =>
    have e : 2001 * (m + 1) = (2000 + 1) + 2001 * m := by omega
    rw [e, Function.iterate_add_apply]
    obtain ⟨i1, i2⟩ := ih
    have c := cycle_closed_form (SysTick_Handler^[2001 * m] s) _ i1 (by rw [i2]; exact h0)
      (by rw [i2]; exact hff) rfl 2000 (le_refl _)
    exact ⟨c.1, by rw [c.2.2.2, i2]⟩

/-- C4: with `error = 3` at a long-counter expiry (and `error` held at 3, which the handler
itself never changes), in every long cycle `m` the expiry firing emits no transition, the
long counter is nonzero at each of the next 2000 firings and zero again after them, and in
those firings the statement `GPIOA->ODR ^= (1 << 5)` is executed exactly 5 times, taking the
red LED from on (after the expiry firing) to off. -/
theorem status_reporter_error_three (s : State) (hl : s.long_counter = 0) (he : s.error = 3)
    (m : Nat) :
    (SysTick_Handler^[2001 * m] s).long_counter = 0 ∧
    (SysTick_Handler^[2001 * m] s).error = 3 ∧
    (∀ k, 1 ≤ k → k ≤ 2000 →
      (SysTick_Handler^[k] (SysTick_Handler^[2001 * m] s)).long_counter ≠ 0) ∧
    (SysTick_Handler (SysTick_Handler^[2001 * m] s)).redToggles
      = (SysTick_Handler^[2001 * m] s).redToggles ∧
    (SysTick_Handler^[2001] (SysTick_Handler^[2001 * m] s)).redToggles
      = (SysTick_Handler^[2001 * m] s).redToggles + 5 ∧
    (SysTick_Handler^[2001] (SysTick_Handler^[2001 * m] s)).long_counter = 0 ∧
    redOn (SysTick_Handler (SysTick_Handler^[2001 * m] s)) = true ∧
    redOn (SysTick_Handler^[2001] (SysTick_Handler^[2001 * m] s)) = false := by
  obtain ⟨b1, b2⟩ := cycle_boundary s hl (by rw [he]; decide) (by rw [he]; decide) m
  rw [he] at b2
  generalize SysTick_Handler^[2001 * m] s = a at b1 b2 ⊢
  have hT : (5 : Nat) = ((a.error <<< 1) + (2 ^ 16 - 1)) % 2 ^ 16 := by rw [b2]; decide
  have c := cycle_closed_form a 5 b1 (by rw [b2]; decide) (by rw [b2]; decide) hT
  refine ⟨b1, b2, ?_, ?_, ?_, ?_, ?_, ?_⟩
  · intro k hk1 hk2
    obtain ⟨j, rfl⟩ : ∃ j, k = j + 1 := ⟨k - 1, by omega⟩
    rw [(c j (by omega)).1]; omega
  · have := (c 0 (by omega)).2.1
    rw [Function.iterate_succ_apply, Function.iterate_zero_apply] at this
    rw [this]; rfl
  · rw [(c 2000 (le_refl _)).2.1]; rfl
  · rw [(c 2000 (le_refl _)).1]
  · have := (c 0 (by omega)).2.2.1
    rw [Function.iterate_succ_apply, Function.iterate_zero_apply] at this
    rw [this]; rfl
  · rw [(c 2000 (le_refl _)).2.2.1]; rfl

/-- The second long cycle from `sampleErr3` has exactly 5 transitions. -/
theorem status_reporter_error_three_witness :
    (SysTick_Handler^[2001] (SysTick_Handler^[2001 * 1] sampleErr3)).redToggles
      = (SysTick_Handler^[2001 * 1] sampleErr3).redToggles + 5 :=
  (status_reporter_error_three sampleErr3 rfl rfl 1).2.2.2.2.1

/-- C7: every firing of `SysTick_Handler` sets `Tick` to `(Tick + 1) mod 2 ^ 32`, whatever
the rest of the state; and `n < 2 ^ 32` firings after a snapshot `tickstart = Tick`, the
32-bit check `(Tick - tickstart) > timeout` holds exactly when `n > timeout`, wraparound of
`Tick` included. -/
theorem tick_counter_timeout (s : State) :
    (SysTick_Handler s).Tick = (s.Tick + 1) % 2 ^ 32 ∧
    ∀ tickstart timeout n : Nat, s.Tick = tickstart → tickstart < 2 ^ 32 →
      timeout < 2 ^ 32 - 1 → n < 2 ^ 32 →
      (sub32 (SysTick_Handler^[n] s).Tick tickstart > timeout ↔ n > timeout) := by
  refine ⟨SysTick_Handler_Tick s, ?_⟩
  intro tickstart timeout n hs ht _ hn
  rw [iterate_Tick n s (by omega), hs]
  unfold sub32
  have : ((tickstart + n) % 2 ^ 32 + (2 ^ 32 - tickstart % 2 ^ 32)) % 2 ^ 32 = n := by omega
  rw [this]

/-- A timeout of 100 fires 101 firings after the snapshot, across the wraparound of `Tick`. -/
theorem tick_counter_timeout_witness :
    sub32 (SysTick_Handler^[101] sampleWrap).Tick (2 ^ 32 - 3) > 100 :=
  ((tick_counter_timeout sampleWrap).2 (2 ^ 32 - 3) 100 101 rfl (by decide) (by decide)
    (by decide)).2 (by decide)

/-- C5 as stated fails: with `error = 6` the long counter expires again after 2001 firings,
when only 9 of the 11 transitions of the budget have been emitted. -/
theorem blink_count_counterexample :
    sampleErr6.long_counter = 0 ∧ sampleErr6.error = 6 ∧
    (SysTick_Handler^[2001] sampleErr6).long_counter = 0 ∧
    (SysTick_Handler^[2001] sampleErr6).redToggles = sampleErr6.redToggles + 9 ∧
    sampleErr6.redToggles + 9 ≠ sampleErr6.redToggles + (2 * 6 - 1) := by
  have c := cycle_closed_form sampleErr6 11 rfl (by decide) (by decide) (by decide) 2000
    (le_refl _)
  exact ⟨rfl, rfl, c.1, c.2.1, by decide⟩

/-- C5 amended: for `1 ≤ error ≤ 5`, held constant, in every long cycle `m` the expiry
firing turns the red LED on without emitting a transition, the statement
`GPIOA->ODR ^= (1 << 5)` is then executed exactly `2 * error - 1` times in the 2000 firings
before the long counter expires again, and the red LED shows exactly `error` on-phases over
the cycle. -/
theorem blink_count (s : State) (e : Nat) (hl : s.long_counter = 0) (he : s.error = e)
    (h1 : 1 ≤ e) (h5 : e ≤ 5) (m : Nat) :
    (SysTick_Handler^[2001 * m] s).long_counter = 0 ∧
    (SysTick_Handler^[2001 * m] s).error = e ∧
    redOn (SysTick_Handler (SysTick_Handler^[2001 * m] s)) = true ∧
    (SysTick_Handler (SysTick_Handler^[2001 * m] s)).redToggles
      = (SysTick_Handler^[2001 * m] s).redToggles ∧
    (∀ k, 1 ≤ k → k ≤ 2000 →
      (SysTick_Handler^[k] (SysTick_Handler^[2001 * m] s)).long_counter ≠ 0) ∧
    (SysTick_Handler^[2001] (SysTick_Handler^[2001 * m] s)).long_counter = 0 ∧
    (SysTick_Handler^[2001] (SysTick_Handler^[2001 * m] s)).redToggles
      = (SysTick_Handler^[2001 * m] s).redToggles + (2 * e - 1) ∧
    onPhases false (redTrace 2001 (SysTick_Handler^[2001 * m] s)) = e := by
  obtain ⟨b1, b2⟩ := cycle_boundary s hl (by omega) (by omega) m
  rw [he] at b2
  generalize SysTick_Handler^[2001 * m] s = a at b1 b2 ⊢
  have hT : 2 * e - 1 = ((a.error <<< 1) + (2 ^ 16 - 1)) % 2 ^ 16 := by
    rw [b2, Nat.shiftLeft_eq]; omega
  have c := cycle_closed_form a (2 * e - 1) b1 (by omega) (by omega) hT
  refine ⟨b1, b2, ?_, ?_, ?_, ?_, ?_, ?_⟩
  · have := (c 0 (by omega)).2.2.1
    rw [Function.iterate_succ_apply, Function.iterate_zero_apply] at this
    rw [this]
    have hm : min (2 * e - 1) ((0 + 1) / 201) = 0 := min_eq_right (by omega)
    rw [hm]; rfl
  · have := (c 0 (by omega)).2.1
    rw [Function.iterate_succ_apply, Function.iterate_zero_apply] at this
    rw [this]
    have hm : min (2 * e - 1) ((0 + 1) / 201) = 0 := min_eq_right (by omega)
    rw [hm]; rfl
  · intro k hk1 hk2
    obtain ⟨j, rfl⟩ : ∃ j, k = j + 1 := ⟨k - 1, by omega⟩
    rw [(c j (by omega)).1]; omega
  · rw [(c 2000 (le_refl _)).1]
  · rw [(c 2000 (le_refl _)).2.1]
    have hm : min (2 * e - 1) ((2000 + 1) / 201) = 2 * e - 1 := min_eq_left (by omega)
    rw [hm]
  · rw [redTrace_eq]
    have hc : (List.range 2001).map (fun k => redOn (SysTick_Handler^[k + 1] a))
        = (List.range 2001).map (fun k => decide (min (2 * e - 1) ((k + 1) / 201) % 2 = 0)) := by
      apply List.map_congr_left
      intro k hk
      rw [List.mem_range] at hk
      exact (c k (by omega)).2.2.1
    rw [hc]
    exact onPhases_table e h1 h5

/-- The long cycle from `sampleErr3` shows 3 on-phases. -/
theorem blink_count_witness :
    onPhases false (redTrace 2001 (SysTick_Handler^[2001 * 0] sampleErr3)) = 3 :=
  (blink_count sampleErr3 3 rfl rfl (by decide) (by decide) 0).2.2.2.2.2.2.2

/-- The counters of `sampleStale` are those reached 200 firings after an expiry that saw
`error = 3`. -/
theorem sampleStale_reached :
    (SysTick_Handler^[200] sampleErr3).long_counter = sampleStale.long_counter ∧
    (SysTick_Handler^[200] sampleErr3).short_counter = sampleStale.short_counter ∧
    (SysTick_Handler^[200] sampleErr3).error_temp = sampleStale.error_temp := by
  have hb := burst_closed_form (SysTick_Handler sampleErr3) 5 (by decide) (by decide)
    (by decide) (by decide) 199 (by decide)
  have e : SysTick_Handler^[200] sampleErr3 = SysTick_Handler^[199] (SysTick_Handler sampleErr3) :=
    Function.iterate_succ_apply _ 199 _
  rw [e, hb.1, hb.2.1, hb.2.2.1]
  decide

/-- C9 as stated fails.  `sampleStale` is in the middle of a burst budgeted for `error = 3`
and now holds `error = 1`: the first firing that sees the new value emits one of the old
transitions and only counts the old budget and the long counter down by one.  `sampleIdle`
is idle and now holds `error = 1`: the first firing that sees it starts no burst and only
counts the long counter down. -/
theorem blink_schedule_reset_counterexample :
    sampleStale.error = 1 ∧ sampleStale.error_temp = 5 ∧
    (SysTick_Handler sampleStale).redToggles = sampleStale.redToggles + 1 ∧
    (SysTick_Handler sampleStale).error_temp = 4 ∧
    (SysTick_Handler sampleStale).long_counter = 1800 ∧
    (SysTick_Handler sampleIdle).error_temp = 0 ∧
    (SysTick_Handler sampleIdle).long_counter = 499 ∧
    (SysTick_Handler sampleIdle).short_counter = sampleIdle.short_counter := by
  decide

/-- C9 amended: the schedule is reset only at a long-counter expiry.  A firing at which the
long counter has not expired does not read `error`: it does the same whatever `error` holds.
A firing at which the long counter has expired and `error` is nonzero and not 0xFF emits no
transition and sets the budget to `2 * error - 1` (as a `uint16_t`), the short counter to
`SHORT_DELAY` less this firing's own count, and the long counter to twice `LONG_DELAY`,
whatever the counters and the budget were before. -/
theorem blink_schedule_reset (s : State) (e : Nat) :
    (s.long_counter ≠ 0 →
      SysTick_Handler { s with error := e } = { SysTick_Handler s with error := e }) ∧
    (s.long_counter = 0 → e ≠ 0 → e ≠ 0xFF →
      (SysTick_Handler { s with error := e }).error_temp = (2 * e - 1) % 2 ^ 16 ∧
      (SysTick_Handler { s with error := e }).short_counter = SHORT_DELAY - 1 ∧
      (SysTick_Handler { s with error := e }).long_counter = 2 * LONG_DELAY ∧
      (SysTick_Handler { s with error := e }).redToggles = s.redToggles) := by
  constructor
  · intro hl
    unfold SysTick_Handler; dsimp only
    rw [if_neg hl]
    split_ifs <;> rfl
  · intro hl h0 hff
    rw [SysTick_Handler_expiry { s with error := e } hl h0 hff]
    refine ⟨?_, rfl, rfl, rfl⟩
    show ((e <<< 1) + (2 ^ 16 - 1)) % 2 ^ 16 = _
    rw [Nat.shiftLeft_eq]; omega

/-- No reset at `sampleStale` (long counter running), reset at `sampleErr6` (long counter
expired). -/
theorem blink_schedule_reset_witness :
    (SysTick_Handler { sampleStale with error := 3 }
      = { SysTick_Handler sampleStale with error := 3 }) ∧
    (SysTick_Handler { sampleErr6 with error := 3 }).error_temp = (2 * 3 - 1) % 2 ^ 16 :=
  ⟨(blink_schedule_reset sampleStale 3).1 (by decide),
   ((blink_schedule_reset sampleErr6 3).2 rfl (by decide) (by decide)).1⟩

/-! ## `error` is only ever written with a nonzero code -/

/-- A wait loop never writes `error`. -/
theorem waitLoop_error (ready : Nat → Bool) (timeout tickstart : Nat) (env : List Obs)
    (s : State) : (waitLoop ready timeout tickstart s env).state.error = s.error := by
  induction env generalizing s with
  | nil => rfl
  | cons o rest ih =>
    unfold waitLoop; dsimp only
    split_ifs
    · exact iterate_error _ _
    · exact iterate_error _ _
    · rw [ih, iterate_error]

/-- Same as `waitLoop_error`, for a named result. -/
theorem waitLoop_error_of_eq {ready : Nat → Bool} {timeout tickstart : Nat} {env : List Obs}
    {s : State} {w : Wait} (h : waitLoop ready timeout tickstart s env = w) :
    w.state.error = s.error := by
  rw [← h]; exact waitLoop_error _ _ _ _ _

/-- The only values `SystemClock_Config` writes to `error` are its three timeout codes. -/
theorem SystemClock_Config_error (s : State) (env : List Obs) :
    (SystemClock_Config s env).state.error = s.error ∨
    (SystemClock_Config s env).state.error = ERROR_HSI_TIMEOUT ∨
    (SystemClock_Config s env).state.error = ERROR_PLL_TIMEOUT ∨
    (SystemClock_Config s env).state.error = ERROR_CLKSWITCH_TIMEOUT := by
  unfold SystemClock_Config; dsimp only
  split
  · rename_i t h1
    left; exact waitLoop_error_of_eq h1
  · right; left; rfl
  · rename_i t rest h1
    have w1 : t.error = s.error := waitLoop_error_of_eq h1
    split
    · rename_i u h2
      have w2 : u.error = t.error := waitLoop_error_of_eq h2
      left; exact w2.trans w1
    · right; right; left; rfl
    · rename_i u rest2 h2
      have w2 : u.error = t.error := waitLoop_error_of_eq h2
      split
      · rename_i v h3
        have w3 : v.error = u.error := waitLoop_error_of_eq h3
        left; exact w3.trans (w2.trans w1)
      · right; right; right; rfl
      · rename_i v rest3 h3
        have w3 : v.error = u.error := waitLoop_error_of_eq h3
        left; exact w3.trans (w2.trans w1)

/-- The trigger handler never writes `error`. -/
theorem EXTI0_1_IRQHandler_error (s : State) : (EXTI0_1_IRQHandler s).error = s.error := by
  unfold EXTI0_1_IRQHandler; dsimp only; split_ifs <;> rfl

/-- The only value `SPI1_IRQHandler` writes to `error` is `ERROR_SPI`. -/
theorem SPI1_IRQHandler_error (s : State) :
    (SPI1_IRQHandler s).error = s.error ∨ (SPI1_IRQHandler s).error = ERROR_SPI := by
  unfold SPI1_IRQHandler; dsimp only; split_ifs
  · left; rfl
  · right; rfl

/-- The only value `SPI2_IRQHandler` writes to `error` is `ERROR_SPI`. -/
theorem SPI2_IRQHandler_error (s : State) :
    (SPI2_IRQHandler s).error = s.error ∨ (SPI2_IRQHandler s).error = ERROR_SPI := by
  unfold SPI2_IRQHandler; dsimp only; split_ifs
  · left; rfl
  · right; rfl

/-- The only value the verifier writes to `error` is `ERROR_SPI`. -/
theorem verifier_error (s : State) :
    (verifier s).error = s.error ∨ (verifier s).error = ERROR_SPI := by
  unfold verifier; dsimp only; split_ifs
  · left; rfl
  · right; rfl
  · left; rfl

/-- C8: `error` is sticky.  From a state with `error` nonzero, `SysTick_Handler`,
`EXTI0_1_IRQHandler`, `SPI1_IRQHandler`, `SPI2_IRQHandler`, the verifier step of the main
loop and `SystemClock_Config` (against any observations, returned or still polling) all
leave `error` nonzero. -/
theorem error_sticky (s : State) (h : s.error ≠ 0) :
    (SysTick_Handler s).error ≠ 0 ∧
    (EXTI0_1_IRQHandler s).error ≠ 0 ∧
    (SPI1_IRQHandler s).error ≠ 0 ∧
    (SPI2_IRQHandler s).error ≠ 0 ∧
    (verifier s).error ≠ 0 ∧
    ∀ env : List Obs, (SystemClock_Config s env).state.error ≠ 0 := by
  refine ⟨?_, ?_, ?_, ?_, ?_, fun env => ?_⟩
  · rw [SysTick_Handler_error]; exact h
  · rw [EXTI0_1_IRQHandler_error]; exact h
  · rcases SPI1_IRQHandler_error s with e | e <;> rw [e]
    · exact h
    · decide
  · rcases SPI2_IRQHandler_error s with e | e <;> rw [e]
    · exact h
    · decide
  · rcases verifier_error s with e | e <;> rw [e]
    · exact h
    · decide
  · rcases SystemClock_Config_error s env with e | e | e | e <;> rw [e]
    · exact h
    · decide
    · decide
    · decide

/-- From `sampleErr3` the verifier and the clock configuration leave `error` nonzero. -/
theorem error_sticky_witness :
    (verifier sampleErr3).error ≠ 0 ∧ (SystemClock_Config sampleErr3 sampleHsiDead).state.error ≠ 0 :=
  ⟨(error_sticky sampleErr3 (by decide)).2.2.2.2.1,
   (error_sticky sampleErr3 (by decide)).2.2.2.2.2 sampleHsiDead⟩

/-! ## Fail-stop of a channel -/

/-- With the SPI1 interrupt disabled, no step enables it, changes `SPI1_Data` or sets
`SPI1_ByteReceived`. -/
theorem Step_SPI1_frozen (t u : State) (h : Step t u) (hd : t.NVIC_SPI1 = false) :
    u.NVIC_SPI1 = false ∧ u.SPI1_Data = t.SPI1_Data ∧
    (u.SPI1_ByteReceived = t.SPI1_ByteReceived ∨ u.SPI1_ByteReceived = 0) := by
  cases h with
  | tick => unfold SysTick_Handler; dsimp only; split_ifs <;> exact ⟨hd, rfl, Or.inl rfl⟩
  | trigger => unfold EXTI0_1_IRQHandler; dsimp only; split_ifs <;> exact ⟨hd, rfl, Or.inl rfl⟩
  | spi1 he => rw [hd] at he; cases he
  | spi2 he =>
    unfold SPI2_IRQHandler NVIC_DisableIRQ; dsimp only
    split_ifs <;> exact ⟨hd, rfl, Or.inl rfl⟩
  | verifier =>
    unfold verifier; dsimp only; split_ifs
    · exact ⟨hd, rfl, Or.inr rfl⟩
    · exact ⟨hd, rfl, Or.inr rfl⟩
    · exact ⟨hd, rfl, Or.inl rfl⟩
  | hardware => exact ⟨hd, rfl, Or.inl rfl⟩

/-- With the SPI2 interrupt disabled, no step enables it, changes `SPI2_Data` or sets
`SPI2_ByteReceived`. -/
theorem Step_SPI2_frozen (t u : State) (h : Step t u) (hd : t.NVIC_SPI2 = false) :
    u.NVIC_SPI2 = false ∧ u.SPI2_Data = t.SPI2_Data ∧
    (u.SPI2_ByteReceived = t.SPI2_ByteReceived ∨ u.SPI2_ByteReceived = 0) := by
  cases h with
  | tick => unfold SysTick_Handler; dsimp only; split_ifs <;> exact ⟨hd, rfl, Or.inl rfl⟩
  | trigger => unfold EXTI0_1_IRQHandler; dsimp only; split_ifs <;> exact ⟨hd, rfl, Or.inl rfl⟩
  | spi1 he =>
    unfold SPI1_IRQHandler NVIC_DisableIRQ; dsimp only
    split_ifs <;> exact ⟨hd, rfl, Or.inl rfl⟩
  | spi2 he => rw [hd] at he; cases he
  | verifier =>
    unfold verifier; dsimp only; split_ifs
    · exact ⟨hd, rfl, Or.inr rfl⟩
    · exact ⟨hd, rfl, Or.inr rfl⟩
    · exact ⟨hd, rfl, Or.inl rfl⟩
  | hardware => exact ⟨hd, rfl, Or.inl rfl⟩

/-- The same over any sequence of steps, for SPI1. -/
theorem Steps_SPI1_frozen (s t : State) (h : Steps s t) (hd : s.NVIC_SPI1 = false) :
    t.NVIC_SPI1 = false ∧ t.SPI1_Data = s.SPI1_Data ∧
    (t.SPI1_ByteReceived = s.SPI1_ByteReceived ∨ t.SPI1_ByteReceived = 0) := by
  induction h with
  | refl => exact ⟨hd, rfl, Or.inl rfl⟩
  | tail _ hstep ih =>
    obtain ⟨i1, i2, i3⟩ := ih
    obtain ⟨j1, j2, j3⟩ := Step_SPI1_frozen _ _ hstep i1
    refine ⟨j1, j2.trans i2, ?_⟩
    rcases j3 with j3 | j3
    · rw [j3]; exact i3
    · exact Or.inr j3

/-- The same over any sequence of steps, for SPI2. -/
theorem Steps_SPI2_frozen (s t : State) (h : Steps s t) (hd : s.NVIC_SPI2 = false) :
    t.NVIC_SPI2 = false ∧ t.SPI2_Data = s.SPI2_Data ∧
    (t.SPI2_ByteReceived = s.SPI2_ByteReceived ∨ t.SPI2_ByteReceived = 0) := by
  induction h with
  | refl => exact ⟨hd, rfl, Or.inl rfl⟩
  | tail _ hstep ih =>
    obtain ⟨i1, i2, i3⟩ := ih
    obtain ⟨j1, j2, j3⟩ := Step_SPI2_frozen _ _ hstep i1
    refine ⟨j1, j2.trans i2, ?_⟩
    rcases j3 with j3 | j3
    · rw [j3]; exact i3
    · exact Or.inr j3

/-- C6: fail-stop is permanent.  When a channel handler runs with RXNE clear it sets `error`
to `ERROR_SPI`, and in every state reached afterwards by any sequence of tick, trigger,
channel-handler (only while enabled), verifier and hardware steps the channel interrupt is
still disabled, the received byte is the one held at the fault, the completion flag is
either as at the fault or cleared, and no further step changes the byte or sets the flag. -/
theorem fail_stop_permanent (s : State) :
    (s.SPI1_SR.testBit 0 = false →
      (SPI1_IRQHandler s).error = ERROR_SPI ∧
      ∀ t, Steps (SPI1_IRQHandler s) t →
        t.NVIC_SPI1 = false ∧ t.SPI1_Data = s.SPI1_Data ∧
        (t.SPI1_ByteReceived = s.SPI1_ByteReceived ∨ t.SPI1_ByteReceived = 0) ∧
        ∀ u, Step t u → u.SPI1_Data = t.SPI1_Data ∧
          (u.SPI1_ByteReceived = t.SPI1_ByteReceived ∨ u.SPI1_ByteReceived = 0)) ∧
    (s.SPI2_SR.testBit 0 = false →
      (SPI2_IRQHandler s).error = ERROR_SPI ∧
      ∀ t, Steps (SPI2_IRQHandler s) t →
        t.NVIC_SPI2 = false ∧ t.SPI2_Data = s.SPI2_Data ∧
        (t.SPI2_ByteReceived = s.SPI2_ByteReceived ∨ t.SPI2_ByteReceived = 0) ∧
        ∀ u, Step t u → u.SPI2_Data = t.SPI2_Data ∧
          (u.SPI2_ByteReceived = t.SPI2_ByteReceived ∨ u.SPI2_ByteReceived = 0)) := by
  constructor
  · intro h
    have hf := SPI1_IRQHandler_fault s h
    refine ⟨by rw [hf], fun t ht => ?_⟩
    have fr := Steps_SPI1_frozen _ _ ht (by rw [hf])
    rw [hf] at fr
    exact ⟨fr.1, fr.2.1, fr.2.2, fun u hu => (Step_SPI1_frozen _ _ hu fr.1).2⟩
  · intro h
    have hf := SPI2_IRQHandler_fault s h
    refine ⟨by rw [hf], fun t ht => ?_⟩
    have fr := Steps_SPI2_frozen _ _ ht (by rw [hf])
    rw [hf] at fr
    exact ⟨fr.1, fr.2.1, fr.2.2, fun u hu => (Step_SPI2_frozen _ _ hu fr.1).2⟩

/-- After the fault at `sampleFault`, a new edge, new arrivals, the trigger handler and the
verifier leave SPI1 disabled and its byte unchanged. -/
theorem fail_stop_permanent_witness :
    sampleAfterFault.NVIC_SPI1 = false ∧ sampleAfterFault.SPI1_Data = sampleFault.SPI1_Data :=
  have h := ((fail_stop_permanent sampleFault).1 (by decide)).2 sampleAfterFault
    (Relation.ReflTransGen.tail
      (Relation.ReflTransGen.tail
        (Relation.ReflTransGen.single (Step.hardware _ 1 3 0x55 3 0x66))
        (Step.trigger _))
      (Step.verifier _))
  ⟨h.1, h.2.1⟩

/-! ## The verifier interleaved with the channel interrupts -/

/-- The main loop run without interruption from the top of the loop comes back to the top
having done exactly what `verifier` does. -/
theorem mainRun_verifier (s : State) :
    ∃ n, 1 ≤ n ∧ n ≤ 7 ∧ mainRun n (.L165a, s) = (.L165a, verifier s) := by
  by_cases h1 : s.SPI1_ByteReceived ≠ 0
  · by_cases h2 : s.SPI2_ByteReceived ≠ 0
    · by_cases h3 : s.SPI1_Data = SPI2_DATA
      · by_cases h4 : s.SPI2_Data = SPI1_DATA
        · exact ⟨7, by omega, by omega, by simp [mainRun, mainStep, verifier, h1, h2, h3, h4]⟩
        · exact ⟨7, by omega, by omega, by simp [mainRun, mainStep, verifier, h1, h2, h3, h4]⟩
      · exact ⟨6, by omega, by omega, by simp [mainRun, mainStep, verifier, h1, h2, h3]⟩
    · exact ⟨2, by omega, by omega, by simp [mainRun, mainStep, verifier, h1, h2]⟩
  · exact ⟨1, by omega, by omega, by simp [mainRun, mainStep, verifier, h1]⟩

/-- The schedule `sampleOverwrite` takes no interrupt inside a pass, yet its pass is mixed:
the byte of cycle 2 overwrote the pending byte of SPI1 before the pass began, while SPI2
still holds cycle 1. -/
theorem sampleOverwrite_outcome :
    (Config.init sampleMatch 1 1).calm sampleOverwrite = true ∧
    (Config.init sampleMatch 1 1).paired sampleOverwrite = false ∧
    ((Config.init sampleMatch 1 1).run sampleOverwrite).records
      = [some 2, some 1, some 2, some 1, some 2, none] := by
  decide

/-- Registers and NVIC enables are out of the reach of `SysTick_Handler`. -/
theorem SysTick_Handler_static (s : State) : (SysTick_Handler s).static = s.static := by
  unfold SysTick_Handler; dsimp only; split_ifs <;> rfl

/-- The same over any number of firings. -/
theorem iterate_static (n : Nat) (s : State) : (SysTick_Handler^[n] s).static = s.static := by
  induction n with
  | zero => rfl
  | succ n ih => rw [Function.iterate_succ_apply', SysTick_Handler_static, ih]

/-- The value of `Tick` modulo `2 ^ 32` after `n` firings, from any state. -/
theorem iterate_Tick_mod (n : Nat) (s : State) :
    (SysTick_Handler^[n] s).Tick % 2 ^ 32 = (s.Tick + n) % 2 ^ 32 := by
  induction n with
  | zero => rfl
  | succ n ih => rw [Function.iterate_succ_apply', SysTick_Handler_Tick]; omega

/-- Elapsed ticks, as the wait loops compute them, grow by one per firing. -/
theorem sub32_iterate (n : Nat) (s : State) (ts : Nat) :
    sub32 (SysTick_Handler^[n] s).Tick ts = (sub32 s.Tick ts + n) % 2 ^ 32 := by
  have h := iterate_Tick_mod n s
  unfold sub32; omega

/-- No ticks have elapsed right after the snapshot. -/
theorem sub32_self (a : Nat) : sub32 a a = 0 := by
  unfold sub32; omega

/-- A wait whose status shows up before the timeout has elapsed ends as `ready`. -/
theorem waitLoop_ready (ready : Nat → Bool) (T ts : Nat) (pre : List Obs) (o : Obs)
    (rest : List Obs) (s : State) (hpre : ∀ x ∈ pre, ready x.reg = false)
    (ho : ready o.reg = true) (ht : sub32 s.Tick ts + ticksOf pre ≤ T) (hT : T < 2 ^ 32) :
    waitLoop ready T ts s (pre ++ o :: rest)
      = .ready (SysTick_Handler^[ticksOf pre + o.ticks] s) rest := by
  induction pre generalizing s with
  | nil =>
    show waitLoop ready T ts s (o :: rest) = _
    unfold waitLoop; dsimp only
    rw [if_pos ho]
    show _ = Wait.ready (SysTick_Handler^[0 + o.ticks] s) rest
    rw [Nat.zero_add]
  | cons x pre ih =>
    have hx : ready x.reg = false := hpre x (List.mem_cons_self _ _)
    have hsum : ticksOf (x :: pre) = x.ticks + ticksOf pre := rfl
    rw [hsum] at ht
    have he := sub32_iterate x.ticks s ts
    show waitLoop ready T ts s (x :: (pre ++ o :: rest)) = _
    unfold waitLoop; dsimp only
    rw [if_neg (by rw [hx]; exact Bool.false_ne_true), if_neg (by rw [he]; omega)]
    rw [ih (SysTick_Handler^[x.ticks] s) (fun y hy => hpre y (List.mem_cons_of_mem _ hy))
      (by rw [he]; omega)]
    rw [← Function.iterate_add_apply, hsum]
    congr 2; omega

/-- A wait whose status has not shown up when the timeout has elapsed ends as `timedOut`. -/
theorem waitLoop_timedOut (ready : Nat → Bool) (T ts : Nat) (pre rest : List Obs) (s : State)
    (hpre : ∀ x ∈ pre, ready x.reg = false) (h0 : sub32 s.Tick ts ≤ T)
    (h1 : T < sub32 s.Tick ts + ticksOf pre) (h2 : sub32 s.Tick ts + ticksOf pre < 2 ^ 32) :
    ∃ k rest1, k ≤ ticksOf pre ∧
      waitLoop ready T ts s (pre ++ rest) = .timedOut (SysTick_Handler^[k] s) rest1 := by
  induction pre generalizing s with
  | nil => exfalso; have : ticksOf [] = 0 := rfl; omega
  | cons x pre ih =>
    have hx : ready x.reg = false := hpre x (List.mem_cons_self _ _)
    have hsum : ticksOf (x :: pre) = x.ticks + ticksOf pre := rfl
    rw [hsum] at h1 h2
    have he := sub32_iterate x.ticks s ts
    show ∃ k rest1, k ≤ _ ∧ waitLoop ready T ts s (x :: (pre ++ rest)) = _
    unfold waitLoop; dsimp only
    rw [if_neg (by rw [hx]; exact Bool.false_ne_true)]
    by_cases hgt : sub32 (SysTick_Handler^[x.ticks] s).Tick ts > T
    · rw [if_pos hgt]
      exact ⟨x.ticks, pre ++ rest, by omega, rfl⟩
    · rw [if_neg hgt]
      obtain ⟨k, rest1, hk, hw⟩ := ih (SysTick_Handler^[x.ticks] s)
        (fun y hy => hpre y (List.mem_cons_of_mem _ hy)) (by omega) (by rw [he]; omega)
        (by rw [he]; omega)
      refine ⟨k + x.ticks, rest1, by omega, ?_⟩
      rw [hw, Function.iterate_add_apply]

/-- The function `SystemClock_Config` in terms of its named stages and waits. -/
theorem SystemClock_Config_eq (s : State) (env : List Obs) :
    SystemClock_Config s env =
      match hsiWait (clockStage1 s) env with
      | .polling t => .polling t
      | .timedOut t rest => .returned { t with error := ERROR_HSI_TIMEOUT } rest
      | .ready t rest =>
        match pllWait (clockStage2 t) rest with
        | .polling u => .polling u
        | .timedOut u rest => .returned { u with error := ERROR_PLL_TIMEOUT } rest
        | .ready u rest =>
          match switchWait (clockStage3 u) rest with
          | .polling v => .polling v
          | .timedOut v rest => .returned { v with error := ERROR_CLKSWITCH_TIMEOUT } rest
          | .ready v rest => .returned v rest := rfl

/-- Wait (4) times out. -/
theorem hsiWait_timedOut (s : State) (pre rest : List Obs)
    (h : notObservedIn hsiReady HSI_TIMEOUT_VALUE pre) :
    ∃ k rest1, hsiWait s (pre ++ rest) = .timedOut (SysTick_Handler^[k] s) rest1 := by
  obtain ⟨k, rest1, -, hw⟩ := waitLoop_timedOut hsiReady HSI_TIMEOUT_VALUE s.Tick pre rest s
    h.1 (by rw [sub32_self]; exact Nat.zero_le _) (by rw [sub32_self]; have := h.2.1; omega)
    (by rw [sub32_self]; have := h.2.2; omega)
  exact ⟨k, rest1, hw⟩

/-- Wait (7) times out. -/
theorem pllWait_timedOut (s : State) (pre rest : List Obs)
    (h : notObservedIn pllReady PLL_TIMEOUT_VALUE pre) :
    ∃ k rest1, pllWait s (pre ++ rest) = .timedOut (SysTick_Handler^[k] s) rest1 := by
  obtain ⟨k, rest1, -, hw⟩ := waitLoop_timedOut pllReady PLL_TIMEOUT_VALUE s.Tick pre rest s
    h.1 (by rw [sub32_self]; exact Nat.zero_le _) (by rw [sub32_self]; have := h.2.1; omega)
    (by rw [sub32_self]; have := h.2.2; omega)
  exact ⟨k, rest1, hw⟩

/-- Wait (9) times out. -/
theorem switchWait_timedOut (s : State) (pre rest : List Obs)
    (h : notObservedIn clockSwitched CLOCKSWITCH_TIMEOUT_VALUE pre) :
    ∃ k rest1, switchWait s (pre ++ rest) = .timedOut (SysTick_Handler^[k] s) rest1 := by
  obtain ⟨k, rest1, -, hw⟩ := waitLoop_timedOut clockSwitched CLOCKSWITCH_TIMEOUT_VALUE s.Tick
    pre rest s h.1 (by rw [sub32_self]; exact Nat.zero_le _)
    (by rw [sub32_self]; have := h.2.1; omega) (by rw [sub32_self]; have := h.2.2; omega)
  exact ⟨k, rest1, hw⟩

/-- Wait (4) observes its status. -/
theorem hsiWait_ready (s : State) (pre : List Obs) (o : Obs) (rest : List Obs)
    (h : observedAt hsiReady HSI_TIMEOUT_VALUE pre o) :
    hsiWait s (pre ++ o :: rest) = .ready (SysTick_Handler^[ticksOf pre + o.ticks] s) rest :=
  waitLoop_ready hsiReady HSI_TIMEOUT_VALUE s.Tick pre o rest s h.1 h.2.2
    (by rw [sub32_self]; have := h.2.1; omega) (by decide)

/-- Wait (7) observes its status. -/
theorem pllWait_ready (s : State) (pre : List Obs) (o : Obs) (rest : List Obs)
    (h : observedAt pllReady PLL_TIMEOUT_VALUE pre o) :
    pllWait s (pre ++ o :: rest) = .ready (SysTick_Handler^[ticksOf pre + o.ticks] s) rest :=
  waitLoop_ready pllReady PLL_TIMEOUT_VALUE s.Tick pre o rest s h.1 h.2.2
    (by rw [sub32_self]; have := h.2.1; omega) (by decide)

/-- Wait (9) observes its status. -/
theorem switchWait_ready (s : State) (pre : List Obs) (o : Obs) (rest : List Obs)
    (h : observedAt clockSwitched CLOCKSWITCH_TIMEOUT_VALUE pre o) :
    switchWait s (pre ++ o :: rest)
      = .ready (SysTick_Handler^[ticksOf pre + o.ticks] s) rest :=
  waitLoop_ready clockSwitched CLOCKSWITCH_TIMEOUT_VALUE s.Tick pre o rest s h.1 h.2.2
    (by rw [sub32_self]; have := h.2.1; omega) (by decide)

/-- The clock registers after any number of firings are those before. -/
theorem iterate_clock_registers (n : Nat) (s : State) :
    (SysTick_Handler^[n] s).RCC_APB1ENR = s.RCC_APB1ENR ∧
    (SysTick_Handler^[n] s).PWR_CR = s.PWR_CR ∧
    (SysTick_Handler^[n] s).RCC_CR = s.RCC_CR ∧
    (SysTick_Handler^[n] s).RCC_CFGR = s.RCC_CFGR := by
  have h := iterate_static n s
  simp only [State.static, Prod.mk.injEq] at h
  exact ⟨h.1, h.2.1, h.2.2.1, h.2.2.2.1⟩

/-- The NVIC enables after any number of firings are those before. -/
theorem iterate_NVIC (n : Nat) (s : State) :
    (SysTick_Handler^[n] s).NVIC_EXTI0_1 = s.NVIC_EXTI0_1 ∧
    (SysTick_Handler^[n] s).NVIC_SPI1 = s.NVIC_SPI1 ∧
    (SysTick_Handler^[n] s).NVIC_SPI2 = s.NVIC_SPI2 := by
  have h := iterate_static n s
  simp only [State.static, Prod.mk.injEq] at h
  exact ⟨h.2.2.2.2.1, h.2.2.2.2.2.1, h.2.2.2.2.2.2⟩

/-- A wait loop leaves the NVIC enables alone. -/
theorem waitLoop_NVIC (ready : Nat → Bool) (timeout tickstart : Nat) (env : List Obs)
    (s : State) :
    (waitLoop ready timeout tickstart s env).state.NVIC_EXTI0_1 = s.NVIC_EXTI0_1 ∧
    (waitLoop ready timeout tickstart s env).state.NVIC_SPI1 = s.NVIC_SPI1 ∧
    (waitLoop ready timeout tickstart s env).state.NVIC_SPI2 = s.NVIC_SPI2 := by
  induction env generalizing s with
  | nil => exact ⟨rfl, rfl, rfl⟩
  | cons o rest ih =>
    unfold waitLoop; dsimp only
    split_ifs
    · exact iterate_NVIC _ _
    · exact iterate_NVIC _ _
    · have h := ih (SysTick_Handler^[o.ticks] s)
      have g := iterate_NVIC o.ticks s
      exact ⟨h.1.trans g.1, h.2.1.trans g.2.1, h.2.2.trans g.2.2⟩

/-- The function `SystemClock_Config` leaves the NVIC enables alone. -/
theorem SystemClock_Config_NVIC (s : State) (env : List Obs) :
    (SystemClock_Config s env).state.NVIC_EXTI0_1 = s.NVIC_EXTI0_1 ∧
    (SystemClock_Config s env).state.NVIC_SPI1 = s.NVIC_SPI1 ∧
    (SystemClock_Config s env).state.NVIC_SPI2 = s.NVIC_SPI2 := by
  rw [SystemClock_Config_eq]
  have w1 := waitLoop_NVIC hsiReady HSI_TIMEOUT_VALUE (clockStage1 s).Tick env (clockStage1 s)
  unfold hsiWait
  cases h1 : waitLoop hsiReady HSI_TIMEOUT_VALUE (clockStage1 s).Tick (clockStage1 s) env with
  | polling t => rw [h1] at w1; exact w1
  | timedOut t rest => rw [h1] at w1; exact w1
  | ready t rest =>
    rw [h1] at w1
    have w2 := waitLoop_NVIC pllReady PLL_TIMEOUT_VALUE (clockStage2 t).Tick rest (clockStage2 t)
    dsimp only; unfold pllWait
    cases h2 : waitLoop pllReady PLL_TIMEOUT_VALUE (clockStage2 t).Tick (clockStage2 t) rest with
    | polling u =>
      rw [h2] at w2; exact ⟨w2.1.trans w1.1, w2.2.1.trans w1.2.1, w2.2.2.trans w1.2.2⟩
    | timedOut u rest2 =>
      rw [h2] at w2; exact ⟨w2.1.trans w1.1, w2.2.1.trans w1.2.1, w2.2.2.trans w1.2.2⟩
    | ready u rest2 =>
      rw [h2] at w2
      have w3 := waitLoop_NVIC clockSwitched CLOCKSWITCH_TIMEOUT_VALUE (clockStage3 u).Tick
        rest2 (clockStage3 u)
      dsimp only; unfold switchWait
      cases h3 : waitLoop clockSwitched CLOCKSWITCH_TIMEOUT_VALUE (clockStage3 u).Tick
          (clockStage3 u) rest2 with
      | polling v =>
        rw [h3] at w3
        exact ⟨w3.1.trans (w2.1.trans w1.1), w3.2.1.trans (w2.2.1.trans w1.2.1),
          w3.2.2.trans (w2.2.2.trans w1.2.2)⟩
      | timedOut v rest3 =>
        rw [h3] at w3
        exact ⟨w3.1.trans (w2.1.trans w1.1), w3.2.1.trans (w2.2.1.trans w1.2.1),
          w3.2.2.trans (w2.2.2.trans w1.2.2)⟩
      | ready v rest3 =>
        rw [h3] at w3
        exact ⟨w3.1.trans (w2.1.trans w1.1), w3.2.1.trans (w2.2.1.trans w1.2.1),
          w3.2.2.trans (w2.2.2.trans w1.2.2)⟩

/-- The function `Configure_GPIO_LED` writes no program variable. -/
theorem Configure_GPIO_LED_st (b : Board) : (Configure_GPIO_LED b).st = b.st := rfl

/-- C11: start-up timeouts.  For each wait of `SystemClock_Config` in order (HSI ready and
divided, PLL ready, clock switched to PLL): if the earlier waits observe their status within
their timeout and this wait does not observe its status while more than its timeout (100,
100, 5000 ticks) elapses, the function returns with `error` set to the stage's code (2, 3,
4) and with `RCC->CR` and `RCC->CFGR` holding the writes of the stages up to this one only;
if all three waits observe their status, it returns with `error` unchanged.  When it returns
with `error` nonzero, `main` ends in its endless loop with only the LED configuration done:
no interrupt enabled, no SPI, button or EXTI register written, SysTick period as first
programmed. -/
theorem startup_timeouts (s : State) :
    (∀ pre rest, notObservedIn hsiReady HSI_TIMEOUT_VALUE pre →
      ∃ u rest1, SystemClock_Config s (pre ++ rest) = .returned u rest1 ∧
        u.error = 2 ∧
        u.RCC_APB1ENR = s.RCC_APB1ENR ||| RCC_APB1ENR_PWREN ∧
        u.PWR_CR = (s.PWR_CR &&& not32 PWR_CR_VOS) ||| PWR_CR_VOS_0 ∧
        u.RCC_CR = s.RCC_CR ||| (RCC_CR_HSION ||| RCC_CR_HSIDIVEN) ∧
        u.RCC_CFGR = s.RCC_CFGR) ∧
    (∀ pre1 o1 pre2 rest, observedAt hsiReady HSI_TIMEOUT_VALUE pre1 o1 →
      notObservedIn pllReady PLL_TIMEOUT_VALUE pre2 →
      ∃ u rest1, SystemClock_Config s (pre1 ++ o1 :: (pre2 ++ rest)) = .returned u rest1 ∧
        u.error = 3 ∧
        u.RCC_CR = s.RCC_CR ||| (RCC_CR_HSION ||| RCC_CR_HSIDIVEN) ||| RCC_CR_PLLON ∧
        u.RCC_CFGR
          = s.RCC_CFGR ||| (RCC_CFGR_PLLSRC_HSI ||| RCC_CFGR_PLLMUL8 ||| RCC_CFGR_PLLDIV2)) ∧
    (∀ pre1 o1 pre2 o2 pre3 rest, observedAt hsiReady HSI_TIMEOUT_VALUE pre1 o1 →
      observedAt pllReady PLL_TIMEOUT_VALUE pre2 o2 →
      notObservedIn clockSwitched CLOCKSWITCH_TIMEOUT_VALUE pre3 →
      ∃ u rest1,
        SystemClock_Config s (pre1 ++ o1 :: (pre2 ++ o2 :: (pre3 ++ rest)))
          = .returned u rest1 ∧
        u.error = 4 ∧
        u.RCC_CR = s.RCC_CR ||| (RCC_CR_HSION ||| RCC_CR_HSIDIVEN) ||| RCC_CR_PLLON ∧
        u.RCC_CFGR
          = s.RCC_CFGR ||| (RCC_CFGR_PLLSRC_HSI ||| RCC_CFGR_PLLMUL8 ||| RCC_CFGR_PLLDIV2)
              ||| RCC_CFGR_SW_PLL) ∧
    (∀ pre1 o1 pre2 o2 pre3 o3 rest, observedAt hsiReady HSI_TIMEOUT_VALUE pre1 o1 →
      observedAt pllReady PLL_TIMEOUT_VALUE pre2 o2 →
      observedAt clockSwitched CLOCKSWITCH_TIMEOUT_VALUE pre3 o3 →
      ∃ u,
        SystemClock_Config s (pre1 ++ o1 :: (pre2 ++ o2 :: (pre3 ++ o3 :: rest)))
          = .returned u rest ∧
        u.error = s.error ∧
        u.RCC_CR = s.RCC_CR ||| (RCC_CR_HSION ||| RCC_CR_HSIDIVEN) ||| RCC_CR_PLLON ∧
        u.RCC_CFGR
          = s.RCC_CFGR ||| (RCC_CFGR_PLLSRC_HSI ||| RCC_CFGR_PLLMUL8 ||| RCC_CFGR_PLLDIV2)
              ||| RCC_CFGR_SW_PLL) ∧
    (∀ (regs : Setup) (env : List Obs) (u : State) (rest : List Obs),
      SystemClock_Config s env = .returned u rest → u.error ≠ 0 →
      ∃ h, main { st := s, regs := regs } env = .halted h ∧ h.st = u ∧
        h.st.NVIC_EXTI0_1 = s.NVIC_EXTI0_1 ∧ h.st.NVIC_SPI1 = s.NVIC_SPI1 ∧
        h.st.NVIC_SPI2 = s.NVIC_SPI2 ∧
        h.regs.SysTick_LOAD = 1999 ∧
        h.regs.RCC_APB2ENR = regs.RCC_APB2ENR ∧
        h.regs.SPI1_CR1 = regs.SPI1_CR1 ∧ h.regs.SPI1_CR2 = regs.SPI1_CR2 ∧
        h.regs.SPI2_CR1 = regs.SPI2_CR1 ∧ h.regs.SPI2_CR2 = regs.SPI2_CR2 ∧
        h.regs.GPIOA_AFR0 = regs.GPIOA_AFR0 ∧ h.regs.GPIOB_AFR0 = regs.GPIOB_AFR0 ∧
        h.regs.GPIOB_AFR1 = regs.GPIOB_AFR1 ∧
        h.regs.GPIOA_MODER = (regs.GPIOA_MODER &&& not32 GPIO_MODER_MODE5) ||| GPIO_MODER_MODE5_0 ∧
        h.regs.GPIOB_MODER = (regs.GPIOB_MODER &&& not32 GPIO_MODER_MODE4) ||| GPIO_MODER_MODE4_0 ∧
        h.regs.SYSCFG_EXTICR0 = regs.SYSCFG_EXTICR0 ∧
        h.regs.EXTI_IMR = regs.EXTI_IMR ∧ h.regs.EXTI_RTSR = regs.EXTI_RTSR) := by
  refine ⟨?_, ?_, ?_, ?_, ?_⟩
  · intro pre rest h
    obtain ⟨k, rest1, hw⟩ := hsiWait_timedOut (clockStage1 s) pre rest h
    have hr := iterate_clock_registers k (clockStage1 s)
    refine ⟨{ SysTick_Handler^[k] (clockStage1 s) with error := ERROR_HSI_TIMEOUT }, rest1,
      ?_, rfl, hr.1, hr.2.1, hr.2.2.1, hr.2.2.2⟩
    rw [SystemClock_Config_eq, hw]
  · intro pre1 o1 pre2 rest h1 h2
    have w1 := hsiWait_ready (clockStage1 s) pre1 o1 (pre2 ++ rest) h1
    have r1 := iterate_clock_registers (ticksOf pre1 + o1.ticks) (clockStage1 s)
    generalize SysTick_Handler^[ticksOf pre1 + o1.ticks] (clockStage1 s) = t at w1 r1
    obtain ⟨k, rest1, w2⟩ := pllWait_timedOut (clockStage2 t) pre2 rest h2
    have r2 := iterate_clock_registers k (clockStage2 t)
    refine ⟨{ SysTick_Handler^[k] (clockStage2 t) with error := ERROR_PLL_TIMEOUT }, rest1,
      ?_, rfl, ?_, ?_⟩
    · rw [SystemClock_Config_eq, w1]; dsimp only; rw [w2]
    · show (SysTick_Handler^[k] (clockStage2 t)).RCC_CR = _
      rw [r2.2.2.1]; show t.RCC_CR ||| RCC_CR_PLLON = _; rw [r1.2.2.1]; rfl
    · show (SysTick_Handler^[k] (clockStage2 t)).RCC_CFGR = _
      rw [r2.2.2.2]; show t.RCC_CFGR ||| _ = _; rw [r1.2.2.2]; rfl
  · intro pre1 o1 pre2 o2 pre3 rest h1 h2 h3
    have w1 := hsiWait_ready (clockStage1 s) pre1 o1 (pre2 ++ o2 :: (pre3 ++ rest)) h1
    have r1 := iterate_clock_registers (ticksOf pre1 + o1.ticks) (clockStage1 s)
    generalize SysTick_Handler^[ticksOf pre1 + o1.ticks] (clockStage1 s) = t at w1 r1
    have w2 := pllWait_ready (clockStage2 t) pre2 o2 (pre3 ++ rest) h2
    have r2 := iterate_clock_registers (ticksOf pre2 + o2.ticks) (clockStage2 t)
    generalize SysTick_Handler^[ticksOf pre2 + o2.ticks] (clockStage2 t) = u at w2 r2
    obtain ⟨k, rest1, w3⟩ := switchWait_timedOut (clockStage3 u) pre3 rest h3
    have r3 := iterate_clock_registers k (clockStage3 u)
    refine ⟨{ SysTick_Handler^[k] (clockStage3 u) with error := ERROR_CLKSWITCH_TIMEOUT },
      rest1, ?_, rfl, ?_, ?_⟩
    · rw [SystemClock_Config_eq, w1]; dsimp only; rw [w2]; dsimp only; rw [w3]
    · show (SysTick_Handler^[k] (clockStage3 u)).RCC_CR = _
      rw [r3.2.2.1]; show u.RCC_CR = _
      rw [r2.2.2.1]; show t.RCC_CR ||| RCC_CR_PLLON = _; rw [r1.2.2.1]; rfl
    · show (SysTick_Handler^[k] (clockStage3 u)).RCC_CFGR = _
      rw [r3.2.2.2]; show u.RCC_CFGR ||| RCC_CFGR_SW_PLL = _
      rw [r2.2.2.2]; show t.RCC_CFGR ||| _ ||| RCC_CFGR_SW_PLL = _; rw [r1.2.2.2]; rfl
  · intro pre1 o1 pre2 o2 pre3 o3 rest h1 h2 h3
    have w1 := hsiWait_ready (clockStage1 s) pre1 o1 (pre2 ++ o2 :: (pre3 ++ o3 :: rest)) h1
    have r1 := iterate_clock_registers (ticksOf pre1 + o1.ticks) (clockStage1 s)
    have e1 := iterate_error (ticksOf pre1 + o1.ticks) (clockStage1 s)
    generalize SysTick_Handler^[ticksOf pre1 + o1.ticks] (clockStage1 s) = t at w1 r1 e1
    have w2 := pllWait_ready (clockStage2 t) pre2 o2 (pre3 ++ o3 :: rest) h2
    have r2 := iterate_clock_registers (ticksOf pre2 + o2.ticks) (clockStage2 t)
    have e2 := iterate_error (ticksOf pre2 + o2.ticks) (clockStage2 t)
    generalize SysTick_Handler^[ticksOf pre2 + o2.ticks] (clockStage2 t) = u at w2 r2 e2
    have w3 := switchWait_ready (clockStage3 u) pre3 o3 rest h3
    have r3 := iterate_clock_registers (ticksOf pre3 + o3.ticks) (clockStage3 u)
    have e3 := iterate_error (ticksOf pre3 + o3.ticks) (clockStage3 u)
    refine ⟨SysTick_Handler^[ticksOf pre3 + o3.ticks] (clockStage3 u), ?_, ?_, ?_, ?_⟩
    · rw [SystemClock_Config_eq, w1]; dsimp only; rw [w2]; dsimp only; rw [w3]
    · rw [e3]; show u.error = _; rw [e2]; show t.error = _; rw [e1]; rfl
    · rw [r3.2.2.1]; show u.RCC_CR = _
      rw [r2.2.2.1]; show t.RCC_CR ||| RCC_CR_PLLON = _; rw [r1.2.2.1]; rfl
    · rw [r3.2.2.2]; show u.RCC_CFGR ||| RCC_CFGR_SW_PLL = _
      rw [r2.2.2.2]; show t.RCC_CFGR ||| _ ||| RCC_CFGR_SW_PLL = _; rw [r1.2.2.2]; rfl
  · intro regs env u rest h hne
    have hn := SystemClock_Config_NVIC s env
    rw [h] at hn
    have hm : main { st := s, regs := regs } env
        = .halted (Configure_GPIO_LED
            { st := u, regs := (SysTick_Config 2000 { st := s, regs := regs }).regs }) := by
      unfold main; dsimp only
      have h' : SystemClock_Config (SysTick_Config 2000 { st := s, regs := regs }).st env
          = .returned u rest := h
      rw [h']; dsimp only
      rw [if_pos (by rw [Configure_GPIO_LED_st]; exact hne)]
    exact ⟨_, hm, rfl, hn.1, hn.2.1, hn.2.2, rfl, rfl, rfl, rfl, rfl, rfl, rfl, rfl, rfl, rfl,
      rfl, rfl, rfl, rfl⟩

set_option maxRecDepth 20000 in
/-- At `State.reset` with the HSI dead: `SystemClock_Config` reports code 2 and writes
neither the PLL configuration nor `PLLON`, and `main` ends in its endless loop with the
configuration registers of SPI1 untouched. -/
theorem startup_timeouts_witness :
    (∃ u rest1, SystemClock_Config State.reset (sampleHsiDead ++ []) = .returned u rest1 ∧
      u.error = 2 ∧
      u.RCC_APB1ENR = State.reset.RCC_APB1ENR ||| RCC_APB1ENR_PWREN ∧
      u.PWR_CR = (State.reset.PWR_CR &&& not32 PWR_CR_VOS) ||| PWR_CR_VOS_0 ∧
      u.RCC_CR = State.reset.RCC_CR ||| (RCC_CR_HSION ||| RCC_CR_HSIDIVEN) ∧
      u.RCC_CFGR = State.reset.RCC_CFGR) ∧
    (∃ h, main { st := State.reset, regs := Setup.reset } sampleHsiDead = .halted h ∧
      h.st = sampleHsiHalt ∧ h.st.NVIC_SPI1 = State.reset.NVIC_SPI1 ∧
      h.regs.SPI1_CR1 = Setup.reset.SPI1_CR1 ∧ h.regs.SPI1_CR2 = Setup.reset.SPI1_CR2) :=
  ⟨(startup_timeouts State.reset).1 sampleHsiDead [] ⟨by decide, by decide, by decide⟩,
   match (startup_timeouts State.reset).2.2.2.2 Setup.reset sampleHsiDead sampleHsiHalt
      [⟨60, 0⟩] (by decide) (by decide) with
   | ⟨h, hm, hu, _, hn, _, _, _, hc1, hc2, _⟩ => ⟨h, hm, hu, hn, hc1, hc2⟩⟩

/-- With every status observed at the second poll, `main` reaches its main loop with nothing
left to observe, `error` zero, the three interrupts enabled and the SysTick period
reprogrammed. -/
theorem startup_ok_sample :
    (main Board.reset sampleClockOk).board.st.error = 0 ∧
    (main Board.reset sampleClockOk).board.st.NVIC_SPI1 = true ∧
    (main Board.reset sampleClockOk).board.st.NVIC_SPI2 = true ∧
    (main Board.reset sampleClockOk).board.st.NVIC_EXTI0_1 = true ∧
    (main Board.reset sampleClockOk).board.regs.SysTick_LOAD = 15999 ∧
    main Board.reset sampleClockOk = .mainLoop (main Board.reset sampleClockOk).board [] := by
  decide

/-! ## The sentinel `error = 0xFF` -/

/-- A firing at which the long counter has not expired: it counts the long counter down,
never raises the budget, never touches the green LED, and with no budget left touches
nothing else. -/
theorem SysTick_Handler_running (s : State) (hl : s.long_counter ≠ 0) :
    (SysTick_Handler s).long_counter = dec32 s.long_counter ∧
    (SysTick_Handler s).error_temp ≤ s.error_temp ∧
    (SysTick_Handler s).GPIOB_ODR = s.GPIOB_ODR ∧
    (s.error_temp = 0 →
      (SysTick_Handler s).error_temp = 0 ∧ (SysTick_Handler s).GPIOA_ODR = s.GPIOA_ODR ∧
      (SysTick_Handler s).redToggles = s.redToggles) := by
  by_cases he : s.error_temp = 0
  · rw [SysTick_Handler_idle s hl he]
    exact ⟨rfl, le_refl _, rfl, fun _ => ⟨he, rfl, rfl⟩⟩
  · by_cases hs : s.short_counter = 0
    · rw [SysTick_Handler_toggle s hl he hs]
      exact ⟨rfl, Nat.sub_le _ _, rfl, fun h => absurd h he⟩
    · rw [SysTick_Handler_count s hl he hs]
      exact ⟨rfl, le_refl _, rfl, fun h => absurd h he⟩

/-- A firing at which the long counter expires with `error = 0xFF`: the long counter wraps
and is not reloaded, the budget is not raised, the green LED is untouched, and with no
budget left nothing else is touched. -/
theorem SysTick_Handler_sentinel (s : State) (hl : s.long_counter = 0) (he : s.error = 0xFF) :
    (SysTick_Handler s).long_counter = 2 ^ 32 - 1 ∧
    (SysTick_Handler s).error_temp ≤ s.error_temp ∧
    (SysTick_Handler s).GPIOB_ODR = s.GPIOB_ODR ∧
    (s.error_temp = 0 →
      (SysTick_Handler s).error_temp = 0 ∧ (SysTick_Handler s).GPIOA_ODR = s.GPIOA_ODR ∧
      (SysTick_Handler s).redToggles = s.redToggles) := by
  have h0 : s.error ≠ 0 := by rw [he]; decide
  have hff : ¬ s.error ≠ 0xFF := by rw [he]; decide
  have hd : dec32 s.long_counter = 2 ^ 32 - 1 := by rw [hl]; decide
  unfold SysTick_Handler; dsimp only
  rw [if_pos hl, if_neg h0, if_neg hff]; dsimp only
  split_ifs with h1 h2
  · exact ⟨hd, Nat.sub_le _ _, rfl, fun h => absurd h (by omega)⟩
  · exact ⟨hd, le_refl _, rfl, fun h => absurd h (by omega)⟩
  · exact ⟨hd, le_refl _, rfl, fun h => ⟨h, rfl, rfl⟩⟩

/-- One more firing, seeing the value written to `error` before it. -/
theorem firingsWith_succ (errs : Nat → Nat) (n : Nat) (s : State) :
    firingsWith errs (n + 1) s
      = SysTick_Handler { firingsWith errs n s with error := errs n } := rfl

/-- The firings after a sentinel expiry, with any values written to `error` in between. -/
theorem sentinel_meantime (s : State) (hl : s.long_counter = 0) (he : s.error = 0xFF)
    (errs : Nat → Nat) (n : Nat) (hn : n < 2 ^ 32) :
    (firingsWith errs n (SysTick_Handler s)).long_counter = 2 ^ 32 - 1 - n ∧
    (firingsWith errs n (SysTick_Handler s)).error_temp ≤ s.error_temp ∧
    (firingsWith errs n (SysTick_Handler s)).GPIOB_ODR = s.GPIOB_ODR ∧
    (s.error_temp = 0 →
      (firingsWith errs n (SysTick_Handler s)).error_temp = 0 ∧
      (firingsWith errs n (SysTick_Handler s)).GPIOA_ODR = s.GPIOA_ODR ∧
      (firingsWith errs n (SysTick_Handler s)).redToggles = s.redToggles) := by
  induction n with
  | zero => exact SysTick_Handler_sentinel s hl he
  | succ n ih =>
    obtain ⟨i1, i2, i3, i4⟩ := ih (by omega)
    rw [firingsWith_succ]
    generalize firingsWith errs n (SysTick_Handler s) = v at i1 i2 i3 i4 ⊢
    have hv : ({ v with error := errs n } : State).long_counter ≠ 0 := by
      show v.long_counter ≠ 0; omega
    obtain ⟨r1, r2, r3, r4⟩ := SysTick_Handler_running { v with error := errs n } hv
    have r1a : (SysTick_Handler { v with error := errs n }).long_counter
        = dec32 v.long_counter := r1
    have r2a : (SysTick_Handler { v with error := errs n }).error_temp ≤ v.error_temp := r2
    have r3a : (SysTick_Handler { v with error := errs n }).GPIOB_ODR = v.GPIOB_ODR := r3
    refine ⟨?_, le_trans r2a i2, r3a.trans i3, fun h => ?_⟩
    · rw [r1a, dec32_pos _ (by omega) (by omega)]; omega
    · obtain ⟨j1, j2, j3⟩ := i4 h
      obtain ⟨k1, k2, k3⟩ := r4 j1
      exact ⟨k1, Eq.trans k2 j2, Eq.trans k3 j3⟩

/-- C12 as stated fails: at `sampleSentinelDue` the long counter expires with `error = 0xFF`
while a transition of an earlier burst is due, and the handler toggles the red LED. -/
theorem sentinel_wrap_counterexample :
    sampleSentinelDue.long_counter = 0 ∧ sampleSentinelDue.error = 0xFF ∧
    (SysTick_Handler sampleSentinelDue).redToggles = sampleSentinelDue.redToggles + 1 ∧
    redOn (SysTick_Handler sampleSentinelDue) = !redOn sampleSentinelDue := by
  decide

/-- C12 amended: if the long counter expires while `error = 0xFF`, the handler starts no
burst (the budget is not raised), leaves the green LED untouched, leaves the red LED
untouched when no transition of an earlier burst is budgeted (`error_temp = 0`), and leaves
`long_counter` at `2 ^ 32 - 1`.  Whatever is written to `error` between the following
firings, `n < 2 ^ 32` firings later the long counter stands at `2 ^ 32 - 1 - n`, so it is
nonzero at each of the next `2 ^ 32 - 1` firings and expires at the firing after them,
exactly `2 ^ 32` firings after this expiry; until then the budget is not raised, the green
LED is untouched and, with `error_temp = 0` at the expiry, the red LED is untouched and no
transition is emitted. -/
theorem sentinel_wrap (s : State) (hl : s.long_counter = 0) (he : s.error = 0xFF)
    (errs : Nat → Nat) :
    (SysTick_Handler s).long_counter = 2 ^ 32 - 1 ∧
    (∀ n, n < 2 ^ 32 →
      (firingsWith errs n (SysTick_Handler s)).long_counter = 2 ^ 32 - 1 - n ∧
      (firingsWith errs n (SysTick_Handler s)).error_temp ≤ s.error_temp ∧
      (firingsWith errs n (SysTick_Handler s)).GPIOB_ODR = s.GPIOB_ODR ∧
      (s.error_temp = 0 →
        (firingsWith errs n (SysTick_Handler s)).error_temp = 0 ∧
        (firingsWith errs n (SysTick_Handler s)).GPIOA_ODR = s.GPIOA_ODR ∧
        (firingsWith errs n (SysTick_Handler s)).redToggles = s.redToggles)) ∧
    (∀ n, n < 2 ^ 32 - 1 → (firingsWith errs n (SysTick_Handler s)).long_counter ≠ 0) ∧
    (firingsWith errs (2 ^ 32 - 1) (SysTick_Handler s)).long_counter = 0 := by
  refine ⟨(SysTick_Handler_sentinel s hl he).1, fun n hn => sentinel_meantime s hl he errs n hn,
    fun n hn => ?_, ?_⟩
  · rw [(sentinel_meantime s hl he errs n (by omega)).1]; omega
  · rw [(sentinel_meantime s hl he errs (2 ^ 32 - 1) (by omega)).1, Nat.sub_self]

/-- From `sampleSentinel`, five firings that all see `error = 3` written in the meantime
start no burst: the long counter stands at `2 ^ 32 - 6` and no transition is emitted. -/
theorem sentinel_wrap_witness :
    (firingsWith (fun _ => 3) 5 (SysTick_Handler sampleSentinel)).long_counter = 2 ^ 32 - 1 - 5 ∧
    (firingsWith (fun _ => 3) 5 (SysTick_Handler sampleSentinel)).redToggles
      = sampleSentinel.redToggles :=
  have h := (sentinel_wrap sampleSentinel rfl rfl (fun _ => 3)).2.1 5 (by decide)
  ⟨h.1, (h.2.2.2 rfl).2.2⟩

end FullDuplex
